import Mathlib

/-!
Verification development for the Nintendo MP3 Player emulation core
(`src/gba/nmp.cpp` of gbe-plus).  The device state, the command dispatcher
(`process_nmp_cmd`), the I/O access routine (`access_nmp_io`) and the
data-out read path (`read_nmp`, `PY_NMP_DATA_OUT` case) are embedded as
executable Lean functions over an explicit state record.  Machine integers
are modelled as `Nat`/`Int` with explicit truncation where the C++ types
force it; out-of-range `std::vector`/`std::string` accesses (undefined
behaviour in the source) are modelled by returning `none`.
-/

namespace GbeNmp

/-- Command opcode constant.  Modelled from the spec: the numeric values of
the `NMP_*` opcodes live in a header (`mmu.h`) that is not part of the
sources; the C++ `switch` in `process_nmp_cmd` requires all of them to be
pairwise distinct, which is the only property any development below relies
on.  `NMP_UPDATE_AUDIO` is given the value `0x8100`, matching the literal
the source itself uses for the same purpose in the `NMP_PLAY_MUSIC`
headphone branch. -/
def NMP_START_FILE_LIST : Nat := 0x10

/-- Command opcode constant (see `NMP_START_FILE_LIST`). -/
def NMP_CONTINUE_FILE_LIST : Nat := 0x11

/-- Command opcode constant (see `NMP_START_FILE_LIST`). -/
def NMP_SET_DIR : Nat := 0x20

/-- Command opcode constant (see `NMP_START_FILE_LIST`). -/
def NMP_GET_ID3_DATA : Nat := 0x40

/-- Command opcode constant (see `NMP_START_FILE_LIST`). -/
def NMP_PLAY_MUSIC : Nat := 0x50

/-- Command opcode constant (see `NMP_START_FILE_LIST`). -/
def NMP_STOP_MUSIC : Nat := 0x51

/-- Command opcode constant (see `NMP_START_FILE_LIST`). -/
def NMP_PAUSE : Nat := 0x52

/-- Command opcode constant (see `NMP_START_FILE_LIST`). -/
def NMP_RESUME : Nat := 0x53

/-- Command opcode constant (see `NMP_START_FILE_LIST`). -/
def NMP_SEEK : Nat := 0x54

/-- Command opcode constant (see `NMP_START_FILE_LIST`). -/
def NMP_SET_VOLUME : Nat := 0x80

/-- Command opcode constant (see `NMP_START_FILE_LIST`). -/
def NMP_PLAY_SFX : Nat := 0x200

/-- Command opcode constant (see `NMP_START_FILE_LIST`). -/
def NMP_CHECK_FIRMWARE_FILE : Nat := 0x300

/-- Command opcode constant (see `NMP_START_FILE_LIST`). -/
def NMP_READ_FIRMWARE_FILE : Nat := 0x301

/-- Command opcode constant (see `NMP_START_FILE_LIST`). -/
def NMP_CLOSE_FIRMWARE_FILE : Nat := 0x303

/-- Command opcode constant (see `NMP_START_FILE_LIST`). -/
def NMP_SLEEP : Nat := 0x500

/-- Command opcode constant (see `NMP_START_FILE_LIST`). -/
def NMP_WAKE : Nat := 0x501

/-- Command opcode constant (see `NMP_START_FILE_LIST`). -/
def NMP_INIT : Nat := 0x8001

/-- Command opcode constant (see `NMP_START_FILE_LIST`).  The source's
`NMP_PLAY_MUSIC` case stores the literal `0x8100` into `nmp_manual_cmd`
where every comparable code path stores `NMP_UPDATE_AUDIO`. -/
def NMP_UPDATE_AUDIO : Nat := 0x8100

/-- Command opcode constant (see `NMP_START_FILE_LIST`). -/
def NMP_HEADPHONE_STATUS : Nat := 0x9001

/-- Operation state of the device (`play_yan.op_state`), the `PLAY_YAN_*`
enumerators used by `nmp.cpp`. -/
inductive OpState where
  | INIT
  | BOOT_SEQUENCE
  | WAIT
  | PROCESS_CMD
  | GET_SD_DATA
deriving DecidableEq, Repr

/-- External audio output line (`apu_stat->ext_audio`): the fields of the
collaborator that `nmp.cpp` reads and writes.  `buffer` holds the decoded
signed 16-bit samples (the source reads the raw byte buffer through an
`s16*` cast and uses `length / 2` as the sample count, so the list length
here is that sample count).  `volume` is the integer output volume; the
double expression `(volume / 46.0) * 63.0` truncates on assignment, which
for `volume ≤ 255` equals `volume * 63 / 46` in exact arithmetic. -/
structure ExtAudio where
  playing : Bool := false
  use_headphones : Bool := false
  volume : Nat := 0
  sample_pos : Nat := 0
  last_pos : Nat := 0
  channels : Nat := 0
  frequency : Nat := 0
  buffer : List Int := []
deriving Repr

/-- Result of the external audio loader.  Modelled from the spec:
`play_yan_load_audio` is repository code outside the given sources; per the
spec it returns pcm samples, sample rate, channel count and duration or
fails. -/
structure LoadedAudio where
  sample_rate : Nat := 0
  channels : Nat := 0
  duration : Nat := 0
  pcm : List Int := []
deriving Repr

/-- Device state: the `play_yan` fields that `nmp.cpp` touches, plus the
external-audio collaborator state and two observation fields.
`reg_if_gamepak` models the Game Pak bit of `memory_map[REG_IF+1]`
(`|= 0x20`).  `manual_irq_fired` is modelled from the spec: it records that
`process_play_yan_irq` (repository code outside the given sources; the
interrupt collaborator's immediate fire) was invoked while
`nmp_manual_irq` was set.  Byte-valued cells hold values `< 256`; strings
are byte lists. -/
structure PYState where
  access_mode : Nat := 0
  access_param : Nat := 0
  op_state : OpState := OpState.WAIT
  command_stream : List Nat := []
  cmd : Nat := 0
  nmp_cmd_status : Nat := 0
  nmp_valid_command : Bool := false
  nmp_status_data : List Nat := List.replicate 16 0
  card_data : List Nat := []
  nmp_data_index : Nat := 0
  firmware_addr : Nat := 0
  current_dir : List Nat := []
  current_music_file : List Nat := []
  folders : List (List Nat) := []
  music_files : List (List Nat) := []
  nmp_entry_count : Nat := 0
  is_music_playing : Bool := false
  is_media_playing : Bool := false
  update_audio_stream : Bool := false
  update_trackbar_timestamp : Bool := false
  audio_sample_index : Nat := 0
  l_audio_dither_error : Int := 0
  r_audio_dither_error : Int := 0
  tracker_update_size : Nat := 0
  audio_buffer_size : Nat := 0
  audio_frame_count : Nat := 0
  nmp_seek_pos : Nat := 0
  nmp_seek_dir : Nat := 0xFF
  nmp_seek_count : Nat := 0
  volume : Nat := 0
  music_length : Nat := 0
  audio_sample_rate : Nat := 0
  audio_channels : Nat := 0
  nmp_manual_cmd : Nat := 0
  nmp_manual_irq : Bool := false
  irq_delay : Nat := 0
  last_delay : Nat := 0
  nmp_ticks : Nat := 0
  nmp_init_stage : Nat := 0
  nmp_audio_index : Nat := 0
  nmp_title : List Nat := []
  nmp_artist : List Nat := []
  nmp_boot_data : List Nat := [0, 0]
  cycles : Nat := 0
  ext_audio : ExtAudio := {}
  reg_if_gamepak : Bool := false
  manual_irq_fired : Bool := false
deriving Repr

/-- External collaborators of `nmp.cpp` (spec section 6): host filesystem
enumeration (`util::get_folders_in_dir` / `util::get_files_in_dir`, the
latter already filtered to `.mp3`), the audio loader, the ID3 tag
extractor, `util::make_ascii_printable`, the SFX file path
(`config::data_path + "play_yan/sfx.wav"`), and `resample_index`, which
abstracts the double computation `(u32)((sample_rate / 16384.0) * n)` of
the audio chunk loop (floating point is not shallowly embeddable; the
claims about the chunk take the selected source samples as given). -/
structure Env where
  get_folders_in_dir : List Nat → List (List Nat)
  get_files_in_dir : List Nat → List (List Nat)
  load_audio : List Nat → Option LoadedAudio
  get_id3 : List Nat → List Nat × List Nat
  make_ascii_printable : List Nat → List Nat
  sfx_path : List Nat
  resample_index : Nat → Nat → Nat

/-- Store a byte into a byte list (`u8` assignment: truncation mod 256). -/
def setByte (l : List Nat) (i v : Nat) : List Nat :=
  l.set i (v % 256)

/-- Default status data written at the top of `process_nmp_cmd`: 16 zero
bytes with the big-endian opcode echo in bytes 0 and 1. -/
def echoStatus (cmd : Nat) : List Nat :=
  [(cmd >>> 8) % 256, cmd % 256, 0, 0, 0, 0, 0, 0, 0, 0, 0, 0, 0, 0, 0, 0]

/-- The tail of the filename/path parse loop shared by `NMP_SET_DIR`,
`NMP_GET_ID3_DATA` and `NMP_PLAY_MUSIC`: take every other byte (the loop
steps its index by 2), stopping at a zero byte or the end of the
stream. -/
def parseTail : List Nat → List Nat
  | [] => []
  | [c] => if c = 0 then [] else [c]
  | c :: _ :: rest => if c = 0 then [] else c :: parseTail rest

/-- The filename/path parse loop: scan `command_stream` from index 3,
stepping by 2; stop at a zero byte or the end; at index 3 a leading
marker byte `0x01`/`0x02` is skipped (the loop continues at index 5
without appending it). -/
def parseCmdName (stream : List Nat) : List Nat :=
  match stream.drop 3 with
  | [] => []
  | [c] => if c = 0 then [] else if c = 1 ∨ c = 2 then [] else [c]
  | c :: _ :: rest =>
    if c = 0 then []
    else if c = 1 ∨ c = 2 then parseTail rest
    else c :: parseTail rest

/-- The `".."` trimming loop of `NMP_SET_DIR`: read `current_dir.back()`
and pop until the last character is `/` (0x2F).  Reading the back of an
empty string (a buffer underflow, undefined behaviour in the source) is
modelled as `none`.  The fuel argument only makes the recursion
structural; it starts at `length + 1` and cannot run out, because every
iteration pops one character and the empty string stops the loop first. -/
def popToSlashGo : Nat → List Nat → Option (List Nat)
  | 0, _ => none
  | fuel + 1, d =>
    match d.getLast? with
    | none => none
    | some c => if c = 0x2F then some d else popToSlashGo fuel d.dropLast

/-- The `".."` trimming loop, entered with enough fuel. -/
def popToSlash (d : List Nat) : Option (List Nat) :=
  popToSlashGo (d.length + 1) d

/-- Full `".."` handling: trim to the last `/`, then drop that trailing
separator. -/
def dirUp (d : List Nat) : Option (List Nat) :=
  (popToSlash d).map List.dropLast

/-- Write a character list into a byte buffer as 16-bit big-endian pairs
(`0x00` then the character), starting at `pos` and stepping by 2 — the
rendering loop of the file-list and ID3 blocks. -/
def writeCharPairs (chars : List Nat) (pos : Nat) (card : List Nat) : List Nat :=
  match chars with
  | [] => card
  | c :: rest => writeCharPairs rest (pos + 2) ((card.set pos 0).set (pos + 1) (c % 256))

/-- Install the loader's result into the device and external-audio state.
Modelled from the spec: `play_yan_load_audio` (outside the given sources)
produces pcm buffer, sample rate, channel count and duration, which the
chunk loop and trackbar logic later read back from
`play_yan.audio_sample_rate` / `audio_channels` / `music_length` and
`ext_audio.buffer`. -/
def installAudio (a : LoadedAudio) (s : PYState) : PYState :=
  { s with audio_sample_rate := a.sample_rate
           audio_channels := a.channels
           music_length := a.duration
           ext_audio := { s.ext_audio with buffer := a.pcm } }

/-- Apply the result of `play_yan_load_audio` inside `NMP_PLAY_MUSIC`:
install on success, fabricate the dummy length 2 on failure. -/
def applyLoadMusic (r : Option LoadedAudio) (s : PYState) : PYState :=
  match r with
  | some a => installAudio a s
  | none => { s with music_length := 2 }

/-- Apply the result of `play_yan_load_audio` inside `NMP_PLAY_SFX`: the
source ignores the boolean result, so a failed load changes nothing. -/
def applyLoadSfx (r : Option LoadedAudio) (s : PYState) : PYState :=
  match r with
  | some a => installAudio a s
  | none => s

/-- The interrupt collaborator's immediate fire (`process_play_yan_irq`).
Modelled from the spec: that function lives outside the given sources; per
the spec this core only sets intent, and the manual path fires at once.
The model records that an immediate manual interrupt was requested. -/
def firePlayYanIrq (s : PYState) : PYState :=
  if s.nmp_manual_irq then { s with manual_irq_fired := true } else s

/-- The step-size of a seek: `2 + (nmp_seek_count / 10)` with the count
already incremented for the current call. -/
def seekShift (count : Nat) : Nat :=
  2 + count / 10

/-- `NMP_START_FILE_LIST` case of `process_nmp_cmd` (applied to the state
with the default status data already installed). -/
def cmdStartFileList (env : Env) (s : PYState) : PYState :=
  let s := { s with nmp_cmd_status := NMP_START_FILE_LIST ||| 0x4000
                    nmp_valid_command := true
                    nmp_status_data := setByte (setByte s.nmp_status_data 2 0) 3 0
                    nmp_entry_count := 0
                    folders := env.get_folders_in_dir s.current_dir
                    music_files := env.get_files_in_dir s.current_dir }
  let s :=
    if s.music_files.length + s.folders.length ≤ s.nmp_entry_count then
      { s with nmp_status_data := setByte (setByte s.nmp_status_data 2 0) 3 1 }
    else s
  { s with nmp_entry_count := s.nmp_entry_count + 1 }

/-- `NMP_CONTINUE_FILE_LIST` case of `process_nmp_cmd`. -/
def cmdContinueFileList (s : PYState) : PYState :=
  let s := { s with nmp_cmd_status := NMP_CONTINUE_FILE_LIST ||| 0x4000
                    nmp_valid_command := true }
  let s :=
    if s.music_files.length + s.folders.length ≤ s.nmp_entry_count then
      { s with nmp_status_data := setByte (setByte s.nmp_status_data 2 0) 3 1 }
    else s
  { s with nmp_entry_count := s.nmp_entry_count + 1 }

/-- `NMP_SET_DIR` case of `process_nmp_cmd`; `none` models the buffer
underflow of the `".."` trimming loop on a `current_dir` without a `/`. -/
def cmdSetDir (s : PYState) : Option PYState :=
  let s := { s with nmp_cmd_status := NMP_SET_DIR ||| 0x4000
                    nmp_valid_command := true }
  let new_dir := parseCmdName s.command_stream
  if new_dir = [0x2E, 0x2E] then
    match dirUp s.current_dir with
    | some d => some { s with current_dir := d }
    | none => none
  else if new_dir ≠ [] then
    some { s with current_dir := s.current_dir ++ 0x2F :: new_dir }
  else some s

/-- `NMP_GET_ID3_DATA` case of `process_nmp_cmd`. -/
def cmdGetId3Data (env : Env) (s : PYState) : PYState :=
  let s := { s with nmp_cmd_status := NMP_GET_ID3_DATA ||| 0x4000
                    nmp_valid_command := true
                    current_music_file := parseCmdName s.command_stream }
  let s := { s with nmp_status_data := setByte (setByte s.nmp_status_data 6 1) 7 1 }
  let tags := env.get_id3 (s.current_dir ++ 0x2F :: s.current_music_file)
  { s with nmp_title := env.make_ascii_printable tags.1
           nmp_artist := env.make_ascii_printable tags.2 }

/-- `NMP_PLAY_MUSIC` case of `process_nmp_cmd`. -/
def cmdPlayMusic (env : Env) (s : PYState) : PYState :=
  let s := { s with nmp_cmd_status := NMP_PLAY_MUSIC ||| 0x4000
                    nmp_valid_command := true
                    is_music_playing := true
                    is_media_playing := true
                    audio_sample_index := 0
                    l_audio_dither_error := 0
                    r_audio_dither_error := 0
                    tracker_update_size := 0
                    ext_audio := { s.ext_audio with last_pos := 0, sample_pos := 0 }
                    nmp_seek_pos := 0
                    nmp_seek_dir := 0xFF
                    nmp_seek_count := 0 }
  let s :=
    if s.ext_audio.use_headphones then
      { s with update_audio_stream := false
               update_trackbar_timestamp := true
               nmp_manual_cmd := 0x8100
               irq_delay := 10 }
    else
      { s with update_audio_stream := true
               update_trackbar_timestamp := false }
  let s := { s with current_music_file := parseCmdName s.command_stream }
  let s := applyLoadMusic (env.load_audio (s.current_dir ++ 0x2F :: s.current_music_file)) s
  { s with cycles := 0 }

/-- `NMP_STOP_MUSIC` case of `process_nmp_cmd`. -/
def cmdStopMusic (s : PYState) : PYState :=
  { s with nmp_cmd_status := NMP_STOP_MUSIC ||| 0x4000
           nmp_valid_command := true
           is_music_playing := false
           is_media_playing := false
           ext_audio := { s.ext_audio with playing := false }
           audio_frame_count := 0
           tracker_update_size := 0
           update_audio_stream := false
           update_trackbar_timestamp := false
           nmp_seek_pos := 0
           nmp_seek_dir := 0xFF
           nmp_seek_count := 0
           nmp_manual_cmd := 0
           irq_delay := 0
           last_delay := 0
           nmp_manual_irq := false }

/-- `NMP_PAUSE` case of `process_nmp_cmd`. -/
def cmdPause (s : PYState) : PYState :=
  { s with nmp_cmd_status := NMP_PAUSE ||| 0x4000
           nmp_valid_command := true
           is_music_playing := false
           is_media_playing := false
           ext_audio := { s.ext_audio with playing := false }
           nmp_seek_pos := 0
           nmp_seek_dir := 0xFF
           nmp_seek_count := 0
           last_delay := s.irq_delay
           nmp_manual_cmd := 0
           irq_delay := 0
           nmp_manual_irq := false }

/-- `NMP_RESUME` case of `process_nmp_cmd`.  Note that the source sets
`nmp_cmd_status` to `NMP_PAUSE | 0x4000`, not `NMP_RESUME | 0x4000`. -/
def cmdResume (s : PYState) : PYState :=
  let s := { s with nmp_cmd_status := NMP_PAUSE ||| 0x4000
                    nmp_valid_command := true
                    is_music_playing := true
                    is_media_playing := true }
  let s :=
    if s.audio_sample_rate ≠ 0 ∧ s.audio_channels ≠ 0 then
      { s with ext_audio := { s.ext_audio with playing := true } }
    else s
  if s.ext_audio.use_headphones then
    { s with update_audio_stream := false
             update_trackbar_timestamp := true
             nmp_manual_cmd := NMP_UPDATE_AUDIO
             irq_delay := s.last_delay
             last_delay := 0 }
  else
    { s with update_audio_stream := true
             update_trackbar_timestamp := false }

/-- `NMP_SEEK` case of `process_nmp_cmd`.  The rewind paths compute an
`s32` position and clamp negatives to zero; on the `Nat` model that is
exactly truncated subtraction.  The fast-forward paths add in `u32`
arithmetic, hence the explicit `% 2 ^ 32`. -/
def cmdSeek (s : PYState) : PYState :=
  let s := { s with nmp_cmd_status := NMP_SEEK ||| 0x4000
                    nmp_valid_command := true }
  if 4 ≤ s.command_stream.length then
    let s := { s with nmp_seek_count := s.nmp_seek_count + 1 }
    let shift := seekShift s.nmp_seek_count
    let s :=
      if s.nmp_seek_dir = 0xFF then
        let last_pos := s.nmp_seek_pos
        let s := { s with nmp_seek_pos := s.command_stream.getD 3 0 }
        if last_pos ≠ 0 ∧ s.nmp_seek_pos ≠ 0 then
          if s.nmp_seek_pos < last_pos then { s with nmp_seek_dir := 0 }
          else { s with nmp_seek_dir := 1 }
        else s
      else if s.nmp_seek_dir = 0 then
        if s.ext_audio.use_headphones then
          { s with ext_audio :=
              { s.ext_audio with
                  sample_pos := s.ext_audio.sample_pos - s.audio_sample_rate * shift } }
        else
          { s with audio_sample_index := s.audio_sample_index - 16384 * shift }
      else
        if s.ext_audio.use_headphones then
          { s with ext_audio :=
              { s.ext_audio with
                  sample_pos := (s.ext_audio.sample_pos + s.audio_sample_rate * shift) % 2 ^ 32 } }
        else
          { s with audio_sample_index := (s.audio_sample_index + 16384 * shift) % 2 ^ 32 }
    let s := { s with nmp_manual_cmd := NMP_UPDATE_AUDIO
                      update_audio_stream := false
                      update_trackbar_timestamp := true
                      irq_delay := 0
                      nmp_manual_irq := true }
    let s := firePlayYanIrq s
    { s with nmp_manual_irq := false }
  else s

/-- `NMP_SET_VOLUME` case of `process_nmp_cmd` (no IRQ is generated:
neither `nmp_cmd_status` nor `nmp_valid_command` is touched).  The double
expression `(volume / 46.0) * 63.0` truncates on assignment to the integer
output-volume field; for byte inputs this equals `volume * 63 / 46`. -/
def cmdSetVolume (s : PYState) : PYState :=
  let s :=
    if 4 ≤ s.command_stream.length then
      let v := s.command_stream.getD 3 0
      { s with volume := v
               ext_audio := { s.ext_audio with volume := v * 63 / 46 } }
    else s
  { s with nmp_seek_pos := 0, nmp_seek_dir := 0xFF }

/-- `NMP_PLAY_SFX` case of `process_nmp_cmd` (no completion status is
recorded; the loader's boolean result is ignored by the source, so a
failed load changes nothing). -/
def cmdPlaySfx (env : Env) (s : PYState) : PYState :=
  let s := { s with nmp_valid_command := true
                    is_music_playing := true
                    is_media_playing := true
                    audio_sample_index := 0
                    l_audio_dither_error := 0
                    r_audio_dither_error := 0
                    tracker_update_size := 0
                    ext_audio := { s.ext_audio with last_pos := 0, sample_pos := 0 }
                    update_audio_stream := true
                    update_trackbar_timestamp := false }
  let s := applyLoadSfx (env.load_audio env.sfx_path) s
  let s := { s with nmp_manual_cmd := NMP_UPDATE_AUDIO, nmp_manual_irq := true }
  let s := firePlayYanIrq s
  { s with nmp_manual_irq := false }

/-- The edge-triggered start of the external audio output at the end of
the `NMP_UPDATE_AUDIO` case. -/
def cmdUpdateAudioStartExt (s : PYState) : PYState :=
  if ¬s.ext_audio.playing ∧ s.audio_sample_rate ≠ 0 ∧ s.audio_channels ≠ 0 then
    { s with ext_audio := { s.ext_audio with channels := s.audio_channels
                                             frequency := s.audio_sample_rate
                                             sample_pos := 0
                                             playing := true } }
  else s

/-- Timestamp bytes and headphone re-arming of the trackbar branch of
`NMP_UPDATE_AUDIO` (the code after the progress check), followed by the
external-output start check. -/
def cmdUpdateAudioTimestamp (s : PYState) : PYState :=
  let s := { s with nmp_status_data :=
               setByte (setByte s.nmp_status_data
                 12 ((s.tracker_update_size >>> 8) % 256)) 13 (s.tracker_update_size % 256) }
  let s :=
    if s.ext_audio.use_headphones then
      { s with irq_delay := 60
               update_audio_stream := false
               update_trackbar_timestamp := true }
    else s
  cmdUpdateAudioStartExt s

/-- The audio-stream branch of `NMP_UPDATE_AUDIO` (buffer size and SD
access ID in the status bytes, new `nmp_audio_index`). -/
def cmdUpdateAudioStream (s : PYState) : PYState :=
  let s := { s with nmp_status_data :=
               setByte (setByte (setByte (setByte s.nmp_status_data
                 2 (s.audio_buffer_size >>> 8)) 3 (s.audio_buffer_size % 256))
                 4 0x02) 5 0x02
                    nmp_audio_index := 0x202 + s.audio_buffer_size / 4 }
  cmdUpdateAudioStartExt s

/-- The playback cursor the trackbar uses: the external real-rate
position in headphone mode, the pseudo-rate sample index otherwise. -/
def trackbarPos (s : PYState) : Nat :=
  if s.ext_audio.use_headphones then s.ext_audio.sample_pos else s.audio_sample_index

/-- The sample rate the trackbar divides by: the decoded rate in
headphone mode, the fixed pseudo-rate 16384 otherwise. -/
def trackbarRate (s : PYState) : Nat :=
  if s.ext_audio.use_headphones then s.audio_sample_rate else 16384

/-- The `u32` value `music_length - 1` (wrapping at zero). -/
def musicLen1 (s : PYState) : Nat :=
  (s.music_length + (2 ^ 32 - 1)) % 2 ^ 32

/-- The trackbar branch of `NMP_UPDATE_AUDIO`.  The progress test
`progress >= 100` on the double
`(tracker_update_size / (music_length - 1)) * 100.0` is, for the `u32`
ranges involved, exactly `tracker_update_size ≥ music_length - 1`;
`u8(progress)` is modelled as the truncated rational value mod 256. -/
def cmdUpdateAudioTrackbar (s : PYState) : PYState :=
  let s := { s with update_audio_stream := true
                    update_trackbar_timestamp := false
                    audio_frame_count := 0 }
  let s :=
    if trackbarRate s ≠ 0 then
      { s with tracker_update_size := trackbarPos s / trackbarRate s }
    else s
  if musicLen1 s ≠ 0 then
    let s := { s with nmp_status_data :=
                 setByte s.nmp_status_data 8 (s.tracker_update_size * 100 / musicLen1 s) }
    if musicLen1 s ≤ s.tracker_update_size then
      { s with nmp_manual_cmd := NMP_STOP_MUSIC, irq_delay := 1 }
    else cmdUpdateAudioTimestamp s
  else cmdUpdateAudioTimestamp s

/-- The header updates of the `NMP_UPDATE_AUDIO` case followed by the
playing-path prelude (pending manual command and buffer size). -/
def updateAudioHeader (s : PYState) : PYState :=
  { s with nmp_cmd_status := NMP_UPDATE_AUDIO
           nmp_valid_command := false
           nmp_data_index := 0
           nmp_manual_cmd := NMP_UPDATE_AUDIO
           audio_buffer_size := 0x480 }

/-- `NMP_UPDATE_AUDIO` case of `process_nmp_cmd`: status/valid/data-index
header, then, while music is playing, one of the audio-stream, trackbar or
plain external-start paths. -/
def cmdUpdateAudio (s : PYState) : PYState :=
  let s := { s with nmp_cmd_status := NMP_UPDATE_AUDIO
                    nmp_valid_command := false
                    nmp_data_index := 0 }
  if s.is_music_playing then
    let s := { s with nmp_manual_cmd := NMP_UPDATE_AUDIO, audio_buffer_size := 0x480 }
    if s.update_audio_stream ∧ ¬s.ext_audio.use_headphones then cmdUpdateAudioStream s
    else if s.update_trackbar_timestamp then cmdUpdateAudioTrackbar s
    else cmdUpdateAudioStartExt s
  else s

/-- The headphone-direction branch of `NMP_HEADPHONE_STATUS` (after the
toggle landed on headphones). -/
def cmdHeadphoneOn (s : PYState) : PYState :=
  let s := { s with nmp_status_data := setByte (setByte s.nmp_status_data 2 0) 3 1
                    update_audio_stream := false
                    update_trackbar_timestamp := true }
  let s :=
    if s.audio_channels ≠ 0 then
      { s with ext_audio :=
          { s.ext_audio with sample_pos := s.ext_audio.last_pos / s.audio_channels } }
    else s
  if s.ext_audio.playing then
    { s with nmp_manual_cmd := NMP_UPDATE_AUDIO, irq_delay := 1 }
  else s

/-- The speaker-direction branch of `NMP_HEADPHONE_STATUS`.  The cursor
conversion divides by the double ratio `audio_sample_rate / 16384.0`; it
is modelled by the truncated rational value (and, like the source for a
zero rate, degenerates: division by zero yields 0 here). -/
def cmdHeadphoneOff (s : PYState) : PYState :=
  let s := { s with update_audio_stream := true
                    update_trackbar_timestamp := false }
  let s :=
    if s.audio_channels ≠ 0 then
      let index := s.ext_audio.last_pos / s.audio_channels * 16384 / s.audio_sample_rate
      { s with audio_sample_index := index / 2 * 2 }
    else s
  { s with nmp_manual_cmd := 0, irq_delay := 0 }

/-- `NMP_HEADPHONE_STATUS` case of `process_nmp_cmd`: toggle the output
routing, then run the branch for the new routing. -/
def cmdHeadphoneStatus (s : PYState) : PYState :=
  let s := { s with nmp_cmd_status := NMP_HEADPHONE_STATUS
                    nmp_valid_command := true
                    ext_audio := { s.ext_audio with use_headphones := ¬s.ext_audio.use_headphones } }
  if s.ext_audio.use_headphones then cmdHeadphoneOn s else cmdHeadphoneOff s

/-- The state with the default status data installed (the loop at the top
of `process_nmp_cmd` zeroing the 16 bytes and echoing the opcode). -/
def withEcho (s : PYState) : PYState :=
  { s with nmp_status_data := echoStatus s.cmd }

/-- An acknowledge-only command case: record the given status reply and
mark the command valid (the `CHECK/READ_FIRMWARE_FILE`, `SLEEP`, `WAKE`
and `INIT` cases). -/
def cmdAckStatus (status : Nat) (s : PYState) : PYState :=
  { s with nmp_cmd_status := status, nmp_valid_command := true }

/-- `NMP_CLOSE_FIRMWARE_FILE` case: acknowledge and zero the active
opcode. -/
def cmdCloseFw (s : PYState) : PYState :=
  { s with nmp_cmd_status := NMP_CLOSE_FIRMWARE_FILE ||| 0x4000
           nmp_valid_command := true
           cmd := 0 }

/-- The unrecognized-opcode default case: command invalid, status 0. -/
def cmdUnknown (s : PYState) : PYState :=
  { s with nmp_valid_command := false, nmp_cmd_status := 0 }

/-- The command dispatcher `process_nmp_cmd`: install the default status
data (opcode echo), then run the opcode's case.  `none` only arises from
the `NMP_SET_DIR` underflow. -/
def processNmpCmd (env : Env) (s0 : PYState) : Option PYState :=
  if s0.cmd = NMP_START_FILE_LIST then some (cmdStartFileList env (withEcho s0))
  else if s0.cmd = NMP_CONTINUE_FILE_LIST then some (cmdContinueFileList (withEcho s0))
  else if s0.cmd = NMP_SET_DIR then cmdSetDir (withEcho s0)
  else if s0.cmd = NMP_GET_ID3_DATA then some (cmdGetId3Data env (withEcho s0))
  else if s0.cmd = NMP_PLAY_MUSIC then some (cmdPlayMusic env (withEcho s0))
  else if s0.cmd = NMP_STOP_MUSIC then some (cmdStopMusic (withEcho s0))
  else if s0.cmd = NMP_PAUSE then some (cmdPause (withEcho s0))
  else if s0.cmd = NMP_RESUME then some (cmdResume (withEcho s0))
  else if s0.cmd = NMP_SEEK then some (cmdSeek (withEcho s0))
  else if s0.cmd = NMP_SET_VOLUME then some (cmdSetVolume (withEcho s0))
  else if s0.cmd = NMP_PLAY_SFX then some (cmdPlaySfx env (withEcho s0))
  else if s0.cmd = NMP_CHECK_FIRMWARE_FILE then
    some (cmdAckStatus (NMP_CHECK_FIRMWARE_FILE ||| 0x4000) (withEcho s0))
  else if s0.cmd = NMP_READ_FIRMWARE_FILE then
    some (cmdAckStatus (NMP_READ_FIRMWARE_FILE ||| 0x4000) (withEcho s0))
  else if s0.cmd = NMP_CLOSE_FIRMWARE_FILE then some (cmdCloseFw (withEcho s0))
  else if s0.cmd = NMP_SLEEP then some (cmdAckStatus (NMP_SLEEP ||| 0x8000) (withEcho s0))
  else if s0.cmd = NMP_WAKE then some (cmdAckStatus (NMP_WAKE ||| 0x8000) (withEcho s0))
  else if s0.cmd = NMP_INIT then some (cmdAckStatus NMP_INIT (withEcho s0))
  else if s0.cmd = NMP_UPDATE_AUDIO then some (cmdUpdateAudio (withEcho s0))
  else if s0.cmd = NMP_HEADPHONE_STATUS then some (cmdHeadphoneStatus (withEcho s0))
  else some (cmdUnknown (withEcho s0))

/-- The recognized opcodes (the non-default cases of the dispatch switch). -/
def knownNmpCmds : List Nat :=
  [NMP_START_FILE_LIST, NMP_CONTINUE_FILE_LIST, NMP_SET_DIR, NMP_GET_ID3_DATA,
   NMP_PLAY_MUSIC, NMP_STOP_MUSIC, NMP_PAUSE, NMP_RESUME, NMP_SEEK, NMP_SET_VOLUME,
   NMP_PLAY_SFX, NMP_CHECK_FIRMWARE_FILE, NMP_READ_FIRMWARE_FILE,
   NMP_CLOSE_FIRMWARE_FILE, NMP_SLEEP, NMP_WAKE, NMP_INIT, NMP_UPDATE_AUDIO,
   NMP_HEADPHONE_STATUS]

/-- Render one list entry into a 528-byte block: tag bytes 0–1, at most
255 characters from byte 2, flag byte 525. -/
def buildListEntry (entry : List Nat) (is_folder : Bool) (card : List Nat) : List Nat :=
  let card := (card.set 0 0).set 1 (if is_folder then 1 else 2)
  let card := writeCharPairs (entry.take 255) 2 card
  card.set 525 (if is_folder then 1 else 2)

/-- The file/folder list block of `access_nmp_io` (528 bytes): a sort tag
in bytes 0–1, the entry text as 16-bit characters from byte 2, and the
folder(1)/file(2) flag in byte 525.  An entry cursor past the end of the
snapshot indexes `music_files` out of range in the source (undefined
behaviour), modelled as `none`. -/
def buildListBlock (folders music_files : List (List Nat)) (entry_count : Nat) :
    Option (List Nat) :=
  let card := List.replicate 528 0
  if entry_count = 0 then some card
  else
    let folder_limit := folders.length
    let real_entry := entry_count - 1
    if real_entry < folder_limit then
      some (buildListEntry (folders.getD real_entry []) true card)
    else if real_entry - folder_limit < music_files.length then
      some (buildListEntry (music_files.getD (real_entry - folder_limit) []) false card)
    else none

/-- The ID3 block of `access_nmp_io` (272 bytes): title (at most 66
characters) from byte 4, artist (at most 68 characters) from byte 136. -/
def buildId3Block (title artist : List Nat) : List Nat :=
  let card := List.replicate 272 0
  let card := writeCharPairs (title.take 66) 4 card
  writeCharPairs (artist.take 68) 136 card

/-- Accumulator of the audio chunk loop of `access_nmp_io`
(`NMP_UPDATE_AUDIO` case): the card buffer, the running dither error, the
advancing `audio_sample_index`, the sample count, the last source index,
whether an out-of-range source index stopped playback, the pending
timestamp trigger, and (for the development below) the ordered list of
(offset, byte) writes the loop performed. -/
structure ChunkAcc where
  card : List Nat
  err : Int
  n : Nat
  cnt : Nat
  lastIndex : Nat
  stopped : Bool
  trig : Bool
  writes : List (Nat × Nat)
deriving Repr

/-- One iteration of the audio chunk loop, at loop counter `x`: select the
source sample (clamping the index at the end of the stream and marking
playback stopped), apply the error-diffusion quantization
(`>>` on negative `s32`/`s16` values is an arithmetic shift, i.e. flooring
division; `& 0xFF` is the nonnegative low byte), clamp to `[-128, 127]`,
and store the low byte of the result at the parity-selected offset. -/
def chunkStep (buffer : List Int) (idxOf : Nat → Nat) (isLeft : Bool)
    (acc : ChunkAcc) (x : Nat) : ChunkAcc :=
  let stream_size := buffer.length
  let i1 := idxOf acc.n
  let index := if stream_size ≤ i1 then stream_size - 1 else i1
  let raw := buffer.getD index 0
  let sample := Int.fdiv (raw + Int.fdiv acc.err 16 * 7) 256
  let clamped := if 127 < sample then 127 else if sample < -128 then -128 else sample
  let b := (clamped.emod 256).toNat
  let offset := if acc.n % 2 = 1 then x - 1 else x + 1
  { card := acc.card.set offset b
    err := raw.emod 256
    n := acc.n + 1
    cnt := acc.cnt + 1
    lastIndex := index
    stopped := acc.stopped || decide (stream_size ≤ i1)
    trig := acc.trig || (decide ((acc.n + 1) % 16384 = 0) && !isLeft)
    writes := acc.writes ++ [(offset, b)] }

/-- The audio chunk loop: `count` iterations (`x` running from 2 to
`limit - 1` with `limit = audio_buffer_size / 2 + 2`). -/
def nmpChunkLoop (buffer : List Int) (idxOf : Nat → Nat) (isLeft : Bool)
    (acc : ChunkAcc) (count : Nat) : ChunkAcc :=
  (List.range' 2 count).foldl (chunkStep buffer idxOf isLeft) acc

/-- Install the chunk loop's results into the device state: the card
buffer, the advanced (or, for a left-channel chunk, restored) sample
index, the per-channel dither error, `last_pos`, the end-of-stream stop
of both playing flags, and the timestamp trigger with its immediate
manual interrupt. -/
def applyChunkAcc (acc : ChunkAcc) (is_left : Bool) (s : PYState) : PYState :=
  let s := { s with card_data := acc.card, audio_sample_index := acc.n }
  let s :=
    if is_left then
      { s with l_audio_dither_error := acc.err
               audio_sample_index := s.audio_sample_index - acc.cnt }
    else
      { s with r_audio_dither_error := acc.err
               ext_audio := { s.ext_audio with last_pos := acc.lastIndex } }
  let s :=
    if acc.stopped then { s with is_music_playing := false, is_media_playing := false }
    else s
  if acc.trig then
    let s := { s with update_audio_stream := false
                      update_trackbar_timestamp := true
                      irq_delay := 0
                      nmp_manual_irq := true }
    let s := firePlayYanIrq s
    { s with nmp_manual_irq := false }
  else s

/-- The `NMP_UPDATE_AUDIO` data-block branch of `access_nmp_io` (the body
of `if(play_yan.update_audio_stream)`). -/
def accessUpdateAudio (env : Env) (s : PYState) : PYState :=
  if s.update_audio_stream then
    let s := { s with card_data := List.replicate (s.audio_buffer_size + 2) 0
                      nmp_data_index := 0
                      audio_frame_count := s.audio_frame_count + 1 }
    if s.audio_sample_rate ≠ 0 then
      let is_left := decide (s.audio_frame_count % 2 = 1)
      let index_shift : Nat := if is_left then 0 else 1
      let idxOf := fun n =>
        env.resample_index s.audio_sample_rate n * s.audio_channels + index_shift
      let err0 := if is_left then s.l_audio_dither_error else s.r_audio_dither_error
      let acc0 : ChunkAcc :=
        { card := s.card_data, err := err0, n := s.audio_sample_index, cnt := 0
          lastIndex := 0, stopped := false
          trig := decide (s.audio_sample_index = 0) && !is_left, writes := [] }
      applyChunkAcc
        (nmpChunkLoop s.ext_audio.buffer idxOf is_left acc0 (s.audio_buffer_size / 2 + 2 - 2))
        is_left s
    else s
  else s

/-- The firmware/status branch of `access_nmp_io` (taken when
`access_param` is non-zero and none of the reserved values): compute the
16-bit `stat_data` and the state effects of the `0x100`/`0x10F`/`0x110`
poll points.  `nmp_ticks` is kept as an unbounded counter; the `u16`
`stat_data` read truncates it. -/
def accessStatusBranch (s : PYState) : PYState :=
  let s := { s with firmware_addr := (s.access_param <<< 1) % 2 ^ 32 }
  let sp :=
    if s.access_param = 0x100 then
      if s.nmp_init_stage < 4 then
        let stat := s.nmp_boot_data.getD (s.nmp_init_stage >>> 1) 0
        let s := { s with nmp_init_stage := s.nmp_init_stage + 1 }
        let s := if s.nmp_init_stage = 2 then { s with reg_if_gamepak := true } else s
        (s, stat)
      else if s.nmp_cmd_status ≠ 0 then (s, s.nmp_cmd_status)
      else (s, 0)
    else if s.access_param = 0x10F then
      let s := { s with op_state := OpState.PROCESS_CMD
                        firmware_addr := 0
                        command_stream := [] }
      let s :=
        if s.nmp_valid_command then
          { s with reg_if_gamepak := true, nmp_valid_command := false }
        else s
      let s := { s with nmp_ticks := s.nmp_ticks + 6 }
      (s, s.nmp_ticks % 2 ^ 16)
    else if s.access_param = 0x110 then
      ({ s with op_state := OpState.WAIT }, 0)
    else (s, 0)
  let s := sp.1
  let stat := sp.2
  { s with nmp_status_data := setByte (setByte s.nmp_status_data 0 (stat >>> 8)) 1 stat
           nmp_data_index := 0
           access_param := 0 }

/-- The SD-data preparation of `access_nmp_io`: clear `card_data` and
enter `GET_SD_DATA` (takes the state with `firmware_addr` already
cleared). -/
def withSdPrep (s : PYState) : PYState :=
  { s with card_data := [], op_state := OpState.GET_SD_DATA }

/-- The file/folder list data branch: reset the data cursor and rebuild
`card_data`; `none` models the out-of-range `music_files` read. -/
def accessListBranch (s : PYState) : Option PYState :=
  (buildListBlock s.folders s.music_files s.nmp_entry_count).map
    (fun card => { s with nmp_data_index := 0, card_data := card })

/-- The ID3 data branch: reset the data cursor and rebuild `card_data`. -/
def accessId3Branch (s : PYState) : PYState :=
  { s with nmp_data_index := 0, card_data := buildId3Block s.nmp_title s.nmp_artist }

/-- The access routine `access_nmp_io`: clear `firmware_addr`, then either
the firmware/status branch (`access_param` non-zero and none of the
reserved values `0x101`, `0x202`, `nmp_audio_index`), or the SD-data
branch that clears `card_data`, enters `GET_SD_DATA` and rebuilds the
block for the current opcode.  The cleared `firmware_addr` plays no part
in the branch conditions, which read `access_param`, `nmp_audio_index`
and `cmd` only. -/
def accessNmpIo (env : Env) (s : PYState) : Option PYState :=
  let t := { s with firmware_addr := 0 }
  if s.access_param ≠ 0 ∧ s.access_param ≠ 0x101 ∧ s.access_param ≠ 0x202 ∧
     s.access_param ≠ s.nmp_audio_index then
    some (accessStatusBranch t)
  else if s.cmd = NMP_START_FILE_LIST ∨ s.cmd = NMP_CONTINUE_FILE_LIST then
    accessListBranch (withSdPrep t)
  else if s.cmd = NMP_GET_ID3_DATA then some (accessId3Branch (withSdPrep t))
  else if s.cmd = NMP_UPDATE_AUDIO then some (accessUpdateAudio env (withSdPrep t))
  else some (withSdPrep t)

/-- The `PY_NMP_DATA_OUT` case of `read_nmp`: in `GET_SD_DATA` return the
next `card_data` byte while the cursor is in range (reads past the end
return 0 without advancing); otherwise return the next of the first 16
status bytes, then 0. -/
def readNmpDataOut (s : PYState) : Nat × PYState :=
  if s.op_state = OpState.GET_SD_DATA then
    if s.nmp_data_index < s.card_data.length then
      (s.card_data.getD s.nmp_data_index 0, { s with nmp_data_index := s.nmp_data_index + 1 })
    else (0, s)
  else if s.nmp_data_index < 16 then
    (s.nmp_status_data.getD s.nmp_data_index 0, { s with nmp_data_index := s.nmp_data_index + 1 })
  else (0, s)

/-- A concrete environment for witnesses and counterexamples. -/
def defaultEnv : Env :=
  { get_folders_in_dir := fun _ => []
    get_files_in_dir := fun _ => []
    load_audio := fun _ => none
    get_id3 := fun _ => ([], [])
    make_ascii_printable := fun l => l
    sfx_path := []
    resample_index := fun _ n => n }

theorem getD_setByte_ne (l : List Nat) (i v j d : Nat) (h : i ≠ j) :
    (setByte l i v).getD j d = l.getD j d := by
  simp [setByte, List.getD_eq_getElem?_getD, List.getElem?_set_ne h]

theorem length_setByte (l : List Nat) (i v : Nat) :
    (setByte l i v).length = l.length := by
  simp [setByte]

theorem getElem?_setByte_ne (l : List Nat) (i v j : Nat) (h : i ≠ j) :
    (setByte l i v)[j]? = l[j]? := by
  simp [setByte, List.getElem?_set_ne h]

/-- CLAIM C10 (amended frame statement is the claim itself): dispatching an
unrecognized opcode changes only `nmp_valid_command` (to `false`),
`nmp_cmd_status` (to 0) and the 16-byte status buffer (opcode echo in
bytes 0–1, zeros elsewhere); every other device-state field is left
unchanged. -/
theorem c10_unknown_cmd_frame (env : Env) (s : PYState) (h : s.cmd ∉ knownNmpCmds) :
    processNmpCmd env s =
      some { s with nmp_status_data := echoStatus s.cmd
                    nmp_valid_command := false
                    nmp_cmd_status := 0 } := by
  simp only [knownNmpCmds, List.mem_cons, List.not_mem_nil, or_false, not_or] at h
  obtain ⟨h1, h2, h3, h4, h5, h6, h7, h8, h9, h10, h11, h12, h13, h14, h15, h16,
    h17, h18, h19⟩ := h
  simp [processNmpCmd, cmdUnknown, withEcho, h1, h2, h3, h4, h5, h6, h7, h8, h9,
    h10, h11, h12, h13, h14, h15, h16, h17, h18, h19]

/-- Witness for C10 at the concrete unrecognized opcode `0x9999`. -/
theorem c10_unknown_cmd_frame_witness :
    (0x9999 : Nat) ∉ knownNmpCmds ∧
    processNmpCmd defaultEnv { cmd := 0x9999 } =
      some { ({ cmd := 0x9999 } : PYState) with
               nmp_status_data := echoStatus 0x9999
               nmp_valid_command := false
               nmp_cmd_status := 0 } :=
  ⟨by decide, c10_unknown_cmd_frame defaultEnv { cmd := 0x9999 } (by decide)⟩

theorem cmdStartFileList_cmd_status (env : Env) (t : PYState) :
    (cmdStartFileList env t).nmp_cmd_status = NMP_START_FILE_LIST ||| 0x4000 := by
  simp [cmdStartFileList, apply_ite PYState.nmp_cmd_status]

theorem cmdContinueFileList_cmd_status (t : PYState) :
    (cmdContinueFileList t).nmp_cmd_status = NMP_CONTINUE_FILE_LIST ||| 0x4000 := by
  simp [cmdContinueFileList, apply_ite PYState.nmp_cmd_status]

theorem cmdSetDir_cmd_status (t u : PYState) (h : cmdSetDir t = some u) :
    u.nmp_cmd_status = NMP_SET_DIR ||| 0x4000 := by
  simp only [cmdSetDir] at h
  split at h
  · split at h
    · exact (Option.some.inj h) ▸ rfl
    · exact absurd h (by simp)
  · split at h
    · exact (Option.some.inj h) ▸ rfl
    · exact (Option.some.inj h) ▸ rfl

theorem cmdGetId3Data_cmd_status (env : Env) (t : PYState) :
    (cmdGetId3Data env t).nmp_cmd_status = NMP_GET_ID3_DATA ||| 0x4000 := by
  simp [cmdGetId3Data, apply_ite PYState.nmp_cmd_status]

theorem applyLoadMusic_cmd_status (r : Option LoadedAudio) (s : PYState) :
    (applyLoadMusic r s).nmp_cmd_status = s.nmp_cmd_status := by
  cases r <;> rfl

theorem cmdPlayMusic_cmd_status (env : Env) (t : PYState) :
    (cmdPlayMusic env t).nmp_cmd_status = NMP_PLAY_MUSIC ||| 0x4000 := by
  simp [cmdPlayMusic, applyLoadMusic_cmd_status, apply_ite PYState.nmp_cmd_status]

theorem cmdStopMusic_cmd_status (t : PYState) :
    (cmdStopMusic t).nmp_cmd_status = NMP_STOP_MUSIC ||| 0x4000 := rfl

theorem cmdPause_cmd_status (t : PYState) :
    (cmdPause t).nmp_cmd_status = NMP_PAUSE ||| 0x4000 := rfl

theorem cmdResume_cmd_status (t : PYState) :
    (cmdResume t).nmp_cmd_status = NMP_PAUSE ||| 0x4000 := by
  simp [cmdResume, apply_ite PYState.nmp_cmd_status]

theorem cmdSeek_cmd_status (t : PYState) :
    (cmdSeek t).nmp_cmd_status = NMP_SEEK ||| 0x4000 := by
  simp [cmdSeek, firePlayYanIrq, apply_ite PYState.nmp_cmd_status]

/-- CLAIM C1, amended: every completion-tracked opcode except `RESUME`
sets `nmp_cmd_status` to that opcode OR `0x4000`; dispatching `RESUME`
sets it to `PAUSE`'s opcode OR `0x4000` instead. -/
theorem c1_tagged_status (env : Env) (s s2 : PYState)
    (h : processNmpCmd env s = some s2) :
    ((s.cmd = NMP_START_FILE_LIST ∨ s.cmd = NMP_CONTINUE_FILE_LIST ∨
      s.cmd = NMP_SET_DIR ∨ s.cmd = NMP_GET_ID3_DATA ∨ s.cmd = NMP_PLAY_MUSIC ∨
      s.cmd = NMP_STOP_MUSIC ∨ s.cmd = NMP_PAUSE ∨ s.cmd = NMP_SEEK ∨
      s.cmd = NMP_CHECK_FIRMWARE_FILE ∨ s.cmd = NMP_READ_FIRMWARE_FILE ∨
      s.cmd = NMP_CLOSE_FIRMWARE_FILE) →
      s2.nmp_cmd_status = s.cmd ||| 0x4000) ∧
    (s.cmd = NMP_RESUME → s2.nmp_cmd_status = NMP_PAUSE ||| 0x4000) := by
  constructor
  · intro hd
    rcases hd with hc | hc | hc | hc | hc | hc | hc | hc | hc | hc | hc
    · rw [hc]
      simp [processNmpCmd, hc, NMP_START_FILE_LIST, NMP_CONTINUE_FILE_LIST, NMP_SET_DIR,
        NMP_GET_ID3_DATA, NMP_PLAY_MUSIC, NMP_STOP_MUSIC, NMP_PAUSE, NMP_RESUME,
        NMP_SEEK, NMP_SET_VOLUME, NMP_PLAY_SFX, NMP_CHECK_FIRMWARE_FILE,
        NMP_READ_FIRMWARE_FILE, NMP_CLOSE_FIRMWARE_FILE, NMP_SLEEP, NMP_WAKE,
        NMP_INIT, NMP_UPDATE_AUDIO, NMP_HEADPHONE_STATUS] at h
      rw [← h]
      exact cmdStartFileList_cmd_status env _
    · rw [hc]
      simp [processNmpCmd, hc, NMP_START_FILE_LIST, NMP_CONTINUE_FILE_LIST, NMP_SET_DIR,
        NMP_GET_ID3_DATA, NMP_PLAY_MUSIC, NMP_STOP_MUSIC, NMP_PAUSE, NMP_RESUME,
        NMP_SEEK, NMP_SET_VOLUME, NMP_PLAY_SFX, NMP_CHECK_FIRMWARE_FILE,
        NMP_READ_FIRMWARE_FILE, NMP_CLOSE_FIRMWARE_FILE, NMP_SLEEP, NMP_WAKE,
        NMP_INIT, NMP_UPDATE_AUDIO, NMP_HEADPHONE_STATUS] at h
      rw [← h]
      exact cmdContinueFileList_cmd_status _
    · rw [hc]
      simp [processNmpCmd, hc, NMP_START_FILE_LIST, NMP_CONTINUE_FILE_LIST, NMP_SET_DIR,
        NMP_GET_ID3_DATA, NMP_PLAY_MUSIC, NMP_STOP_MUSIC, NMP_PAUSE, NMP_RESUME,
        NMP_SEEK, NMP_SET_VOLUME, NMP_PLAY_SFX, NMP_CHECK_FIRMWARE_FILE,
        NMP_READ_FIRMWARE_FILE, NMP_CLOSE_FIRMWARE_FILE, NMP_SLEEP, NMP_WAKE,
        NMP_INIT, NMP_UPDATE_AUDIO, NMP_HEADPHONE_STATUS] at h
      exact cmdSetDir_cmd_status _ _ h
    · rw [hc]
      simp [processNmpCmd, hc, NMP_START_FILE_LIST, NMP_CONTINUE_FILE_LIST, NMP_SET_DIR,
        NMP_GET_ID3_DATA, NMP_PLAY_MUSIC, NMP_STOP_MUSIC, NMP_PAUSE, NMP_RESUME,
        NMP_SEEK, NMP_SET_VOLUME, NMP_PLAY_SFX, NMP_CHECK_FIRMWARE_FILE,
        NMP_READ_FIRMWARE_FILE, NMP_CLOSE_FIRMWARE_FILE, NMP_SLEEP, NMP_WAKE,
        NMP_INIT, NMP_UPDATE_AUDIO, NMP_HEADPHONE_STATUS] at h
      rw [← h]
      exact cmdGetId3Data_cmd_status env _
    · rw [hc]
      simp [processNmpCmd, hc, NMP_START_FILE_LIST, NMP_CONTINUE_FILE_LIST, NMP_SET_DIR,
        NMP_GET_ID3_DATA, NMP_PLAY_MUSIC, NMP_STOP_MUSIC, NMP_PAUSE, NMP_RESUME,
        NMP_SEEK, NMP_SET_VOLUME, NMP_PLAY_SFX, NMP_CHECK_FIRMWARE_FILE,
        NMP_READ_FIRMWARE_FILE, NMP_CLOSE_FIRMWARE_FILE, NMP_SLEEP, NMP_WAKE,
        NMP_INIT, NMP_UPDATE_AUDIO, NMP_HEADPHONE_STATUS] at h
      rw [← h]
      exact cmdPlayMusic_cmd_status env _
    · rw [hc]
      simp [processNmpCmd, hc, NMP_START_FILE_LIST, NMP_CONTINUE_FILE_LIST, NMP_SET_DIR,
        NMP_GET_ID3_DATA, NMP_PLAY_MUSIC, NMP_STOP_MUSIC, NMP_PAUSE, NMP_RESUME,
        NMP_SEEK, NMP_SET_VOLUME, NMP_PLAY_SFX, NMP_CHECK_FIRMWARE_FILE,
        NMP_READ_FIRMWARE_FILE, NMP_CLOSE_FIRMWARE_FILE, NMP_SLEEP, NMP_WAKE,
        NMP_INIT, NMP_UPDATE_AUDIO, NMP_HEADPHONE_STATUS] at h
      rw [← h]
      exact cmdStopMusic_cmd_status _
    · rw [hc]
      simp [processNmpCmd, hc, NMP_START_FILE_LIST, NMP_CONTINUE_FILE_LIST, NMP_SET_DIR,
        NMP_GET_ID3_DATA, NMP_PLAY_MUSIC, NMP_STOP_MUSIC, NMP_PAUSE, NMP_RESUME,
        NMP_SEEK, NMP_SET_VOLUME, NMP_PLAY_SFX, NMP_CHECK_FIRMWARE_FILE,
        NMP_READ_FIRMWARE_FILE, NMP_CLOSE_FIRMWARE_FILE, NMP_SLEEP, NMP_WAKE,
        NMP_INIT, NMP_UPDATE_AUDIO, NMP_HEADPHONE_STATUS] at h
      rw [← h]
      exact cmdPause_cmd_status _
    · rw [hc]
      simp [processNmpCmd, hc, NMP_START_FILE_LIST, NMP_CONTINUE_FILE_LIST, NMP_SET_DIR,
        NMP_GET_ID3_DATA, NMP_PLAY_MUSIC, NMP_STOP_MUSIC, NMP_PAUSE, NMP_RESUME,
        NMP_SEEK, NMP_SET_VOLUME, NMP_PLAY_SFX, NMP_CHECK_FIRMWARE_FILE,
        NMP_READ_FIRMWARE_FILE, NMP_CLOSE_FIRMWARE_FILE, NMP_SLEEP, NMP_WAKE,
        NMP_INIT, NMP_UPDATE_AUDIO, NMP_HEADPHONE_STATUS] at h
      rw [← h]
      exact cmdSeek_cmd_status _
    · rw [hc]
      simp [processNmpCmd, hc, NMP_START_FILE_LIST, NMP_CONTINUE_FILE_LIST, NMP_SET_DIR,
        NMP_GET_ID3_DATA, NMP_PLAY_MUSIC, NMP_STOP_MUSIC, NMP_PAUSE, NMP_RESUME,
        NMP_SEEK, NMP_SET_VOLUME, NMP_PLAY_SFX, NMP_CHECK_FIRMWARE_FILE,
        NMP_READ_FIRMWARE_FILE, NMP_CLOSE_FIRMWARE_FILE, NMP_SLEEP, NMP_WAKE,
        NMP_INIT, NMP_UPDATE_AUDIO, NMP_HEADPHONE_STATUS] at h
      rw [← h]
      rfl
    · rw [hc]
      simp [processNmpCmd, hc, NMP_START_FILE_LIST, NMP_CONTINUE_FILE_LIST, NMP_SET_DIR,
        NMP_GET_ID3_DATA, NMP_PLAY_MUSIC, NMP_STOP_MUSIC, NMP_PAUSE, NMP_RESUME,
        NMP_SEEK, NMP_SET_VOLUME, NMP_PLAY_SFX, NMP_CHECK_FIRMWARE_FILE,
        NMP_READ_FIRMWARE_FILE, NMP_CLOSE_FIRMWARE_FILE, NMP_SLEEP, NMP_WAKE,
        NMP_INIT, NMP_UPDATE_AUDIO, NMP_HEADPHONE_STATUS] at h
      rw [← h]
      rfl
    · rw [hc]
      simp [processNmpCmd, hc, NMP_START_FILE_LIST, NMP_CONTINUE_FILE_LIST, NMP_SET_DIR,
        NMP_GET_ID3_DATA, NMP_PLAY_MUSIC, NMP_STOP_MUSIC, NMP_PAUSE, NMP_RESUME,
        NMP_SEEK, NMP_SET_VOLUME, NMP_PLAY_SFX, NMP_CHECK_FIRMWARE_FILE,
        NMP_READ_FIRMWARE_FILE, NMP_CLOSE_FIRMWARE_FILE, NMP_SLEEP, NMP_WAKE,
        NMP_INIT, NMP_UPDATE_AUDIO, NMP_HEADPHONE_STATUS] at h
      rw [← h]
      rfl
  · intro hc
    simp [processNmpCmd, hc, NMP_START_FILE_LIST, NMP_CONTINUE_FILE_LIST, NMP_SET_DIR,
        NMP_GET_ID3_DATA, NMP_PLAY_MUSIC, NMP_STOP_MUSIC, NMP_PAUSE, NMP_RESUME,
        NMP_SEEK, NMP_SET_VOLUME, NMP_PLAY_SFX, NMP_CHECK_FIRMWARE_FILE,
        NMP_READ_FIRMWARE_FILE, NMP_CLOSE_FIRMWARE_FILE, NMP_SLEEP, NMP_WAKE,
        NMP_INIT, NMP_UPDATE_AUDIO, NMP_HEADPHONE_STATUS] at h
    rw [← h]
    exact cmdResume_cmd_status _

/-- Counterexample for C1 as stated: dispatching `NMP_RESUME` yields
`nmp_cmd_status = NMP_PAUSE | 0x4000`, which differs from
`NMP_RESUME | 0x4000`. -/
theorem c1_resume_counterexample :
    (processNmpCmd defaultEnv { cmd := NMP_RESUME }).map PYState.nmp_cmd_status
        = some (NMP_PAUSE ||| 0x4000) ∧
    NMP_PAUSE ||| 0x4000 ≠ NMP_RESUME ||| 0x4000 :=
  ⟨rfl, by decide⟩

/-- Witness for C1 (amended) at `NMP_STOP_MUSIC` and at `NMP_RESUME`. -/
theorem c1_tagged_status_witness :
    (cmdStopMusic (withEcho { cmd := NMP_STOP_MUSIC })).nmp_cmd_status
      = NMP_STOP_MUSIC ||| 0x4000 := by
  have h : processNmpCmd defaultEnv { cmd := NMP_STOP_MUSIC }
      = some (cmdStopMusic (withEcho { cmd := NMP_STOP_MUSIC })) := rfl
  exact (c1_tagged_status defaultEnv _ _ h).1 (by decide)

theorem cmdSetVolume_withEcho_fields (s : PYState) (h : 4 ≤ s.command_stream.length) :
    (cmdSetVolume (withEcho s)).ext_audio.volume = s.command_stream.getD 3 0 * 63 / 46 ∧
    (cmdSetVolume (withEcho s)).nmp_valid_command = s.nmp_valid_command ∧
    (cmdSetVolume (withEcho s)).nmp_manual_cmd = s.nmp_manual_cmd ∧
    (cmdSetVolume (withEcho s)).irq_delay = s.irq_delay ∧
    (cmdSetVolume (withEcho s)).nmp_manual_irq = s.nmp_manual_irq ∧
    (cmdSetVolume (withEcho s)).manual_irq_fired = s.manual_irq_fired := by
  simp [cmdSetVolume, withEcho, h]

/-- CLAIM C4: `SET_VOLUME` with a stream volume byte `v ≤ 46` scales it
linearly into the `[0, 63]` output range (the truncated `v * 63 / 46`,
hence `23 ↦ 31`, `46 ↦ 63`, `0 ↦ 0`) and issues no interrupt: the
IRQ-owed flag, the pending manual command, the delay counter, the manual
flag and the immediate-fire record are all left unchanged. -/
theorem c4_set_volume (env : Env) (s : PYState) (v : Nat)
    (h1 : s.cmd = NMP_SET_VOLUME) (h2 : 4 ≤ s.command_stream.length)
    (h3 : s.command_stream.getD 3 0 = v) (h4 : v ≤ 46) :
    ((processNmpCmd env s).map (fun t => t.ext_audio.volume) = some (v * 63 / 46)) ∧
    (v = 23 → (processNmpCmd env s).map (fun t => t.ext_audio.volume) = some 31) ∧
    (v = 46 → (processNmpCmd env s).map (fun t => t.ext_audio.volume) = some 63) ∧
    (v = 0 → (processNmpCmd env s).map (fun t => t.ext_audio.volume) = some 0) ∧
    ((processNmpCmd env s).map PYState.nmp_valid_command = some s.nmp_valid_command) ∧
    ((processNmpCmd env s).map PYState.nmp_manual_cmd = some s.nmp_manual_cmd) ∧
    ((processNmpCmd env s).map PYState.irq_delay = some s.irq_delay) ∧
    ((processNmpCmd env s).map PYState.nmp_manual_irq = some s.nmp_manual_irq) ∧
    ((processNmpCmd env s).map PYState.manual_irq_fired = some s.manual_irq_fired) := by
  have hp : processNmpCmd env s = some (cmdSetVolume (withEcho s)) := by
    simp [processNmpCmd, h1, NMP_START_FILE_LIST, NMP_CONTINUE_FILE_LIST, NMP_SET_DIR,
      NMP_GET_ID3_DATA, NMP_PLAY_MUSIC, NMP_STOP_MUSIC, NMP_PAUSE, NMP_RESUME,
      NMP_SEEK, NMP_SET_VOLUME]
  have hf := cmdSetVolume_withEcho_fields s h2
  rw [hp]
  simp only [Option.map_some']
  refine ⟨?_, ?_, ?_, ?_, ?_, ?_, ?_, ?_, ?_⟩
  · rw [hf.1, h3]
  · intro hv
    rw [hf.1, h3, hv]
  · intro hv
    rw [hf.1, h3, hv]
  · intro hv
    rw [hf.1, h3, hv]
  · rw [hf.2.1]
  · rw [hf.2.2.1]
  · rw [hf.2.2.2.1]
  · rw [hf.2.2.2.2.1]
  · rw [hf.2.2.2.2.2]

/-- Witness for C4 at volume byte 23. -/
theorem c4_set_volume_witness :
    (({ cmd := NMP_SET_VOLUME, command_stream := [0, 0x80, 0, 23] } : PYState).cmd
        = NMP_SET_VOLUME) ∧
    (4 ≤ ([0, 0x80, 0, 23] : List Nat).length) ∧
    (processNmpCmd defaultEnv { cmd := NMP_SET_VOLUME, command_stream := [0, 0x80, 0, 23] }).map
        (fun t => t.ext_audio.volume) = some 31 := by
  refine ⟨rfl, by decide, ?_⟩
  have := c4_set_volume defaultEnv
    { cmd := NMP_SET_VOLUME, command_stream := [0, 0x80, 0, 23] } 23 rfl (by decide) rfl
    (by decide)
  exact this.2.1 rfl

theorem installAudio_status_data (a : LoadedAudio) (t : PYState) :
    (installAudio a t).nmp_status_data = t.nmp_status_data := rfl

theorem applyLoadMusic_status_data (r : Option LoadedAudio) (t : PYState) :
    (applyLoadMusic r t).nmp_status_data = t.nmp_status_data := by
  cases r <;> rfl

theorem applyLoadSfx_status_data (r : Option LoadedAudio) (t : PYState) :
    (applyLoadSfx r t).nmp_status_data = t.nmp_status_data := by
  cases r <;> rfl

theorem firePlayYanIrq_status_data (t : PYState) :
    (firePlayYanIrq t).nmp_status_data = t.nmp_status_data := by
  simp [firePlayYanIrq, apply_ite PYState.nmp_status_data]

theorem cmdStopMusic_status_data (t : PYState) :
    (cmdStopMusic t).nmp_status_data = t.nmp_status_data := rfl

theorem cmdPause_status_data (t : PYState) :
    (cmdPause t).nmp_status_data = t.nmp_status_data := rfl

theorem cmdResume_status_data (t : PYState) :
    (cmdResume t).nmp_status_data = t.nmp_status_data := by
  simp [cmdResume, apply_ite PYState.nmp_status_data]

theorem cmdSeek_status_data (t : PYState) :
    (cmdSeek t).nmp_status_data = t.nmp_status_data := by
  simp [cmdSeek, firePlayYanIrq, apply_ite PYState.nmp_status_data]

theorem cmdSetVolume_status_data (t : PYState) :
    (cmdSetVolume t).nmp_status_data = t.nmp_status_data := by
  simp [cmdSetVolume, apply_ite PYState.nmp_status_data]

theorem cmdPlayMusic_status_data (env : Env) (t : PYState) :
    (cmdPlayMusic env t).nmp_status_data = t.nmp_status_data := by
  simp [cmdPlayMusic, applyLoadMusic_status_data, apply_ite PYState.nmp_status_data]

theorem cmdPlaySfx_status_data (env : Env) (t : PYState) :
    (cmdPlaySfx env t).nmp_status_data = t.nmp_status_data := by
  simp [cmdPlaySfx, applyLoadSfx_status_data, firePlayYanIrq_status_data,
    apply_ite PYState.nmp_status_data]

theorem cmdUpdateAudioStartExt_status_data (t : PYState) :
    (cmdUpdateAudioStartExt t).nmp_status_data = t.nmp_status_data := by
  simp [cmdUpdateAudioStartExt, apply_ite PYState.nmp_status_data]

theorem cmdUpdateAudioTimestamp_status01 (t : PYState) (j d : Nat) (hj : j < 2) :
    (cmdUpdateAudioTimestamp t).nmp_status_data[j]?.getD d = t.nmp_status_data[j]?.getD d := by
  interval_cases j <;>
    simp [cmdUpdateAudioTimestamp, cmdUpdateAudioStartExt_status_data,
      apply_ite PYState.nmp_status_data,
      apply_ite (fun l : List Nat => l[0]?.getD d), apply_ite (fun l : List Nat => l[1]?.getD d),
      getElem?_setByte_ne]

theorem cmdUpdateAudioStream_status01 (t : PYState) (j d : Nat) (hj : j < 2) :
    (cmdUpdateAudioStream t).nmp_status_data[j]?.getD d = t.nmp_status_data[j]?.getD d := by
  interval_cases j <;>
    simp [cmdUpdateAudioStream, cmdUpdateAudioStartExt_status_data,
      getElem?_setByte_ne]

theorem cmdUpdateAudioTrackbar_status01 (t : PYState) (j d : Nat) (hj : j < 2) :
    (cmdUpdateAudioTrackbar t).nmp_status_data[j]?.getD d = t.nmp_status_data[j]?.getD d := by
  interval_cases j <;>
    simp [cmdUpdateAudioTrackbar, trackbarPos, trackbarRate, musicLen1,
      fun u => cmdUpdateAudioTimestamp_status01 u 0 d (by decide),
      fun u => cmdUpdateAudioTimestamp_status01 u 1 d (by decide),
      apply_ite PYState.nmp_status_data, apply_ite PYState.music_length,
      apply_ite PYState.tracker_update_size,
      apply_ite (fun l : List Nat => l[0]?.getD d), apply_ite (fun l : List Nat => l[1]?.getD d),
      getElem?_setByte_ne]

theorem cmdUpdateAudio_status01 (t : PYState) (j d : Nat) (hj : j < 2) :
    (cmdUpdateAudio t).nmp_status_data.getD j d = t.nmp_status_data.getD j d := by
  interval_cases j <;>
    simp [cmdUpdateAudio,
      fun u => cmdUpdateAudioStream_status01 u 0 d (by decide),
      fun u => cmdUpdateAudioStream_status01 u 1 d (by decide),
      fun u => cmdUpdateAudioTrackbar_status01 u 0 d (by decide),
      fun u => cmdUpdateAudioTrackbar_status01 u 1 d (by decide),
      cmdUpdateAudioStartExt_status_data,
      apply_ite PYState.nmp_status_data,
      apply_ite (fun l : List Nat => l[0]?.getD d), apply_ite (fun l : List Nat => l[1]?.getD d)]

theorem cmdStartFileList_status01 (env : Env) (t : PYState) (j d : Nat) (hj : j < 2) :
    (cmdStartFileList env t).nmp_status_data.getD j d = t.nmp_status_data.getD j d := by
  interval_cases j <;>
    simp [cmdStartFileList,
      apply_ite PYState.nmp_status_data,
      apply_ite (fun l : List Nat => l[0]?.getD d), apply_ite (fun l : List Nat => l[1]?.getD d),
      getD_setByte_ne, getElem?_setByte_ne]

theorem cmdContinueFileList_status01 (t : PYState) (j d : Nat) (hj : j < 2) :
    (cmdContinueFileList t).nmp_status_data.getD j d = t.nmp_status_data.getD j d := by
  interval_cases j <;>
    simp [cmdContinueFileList,
      apply_ite PYState.nmp_status_data,
      apply_ite (fun l : List Nat => l[0]?.getD d), apply_ite (fun l : List Nat => l[1]?.getD d),
      getD_setByte_ne, getElem?_setByte_ne]

theorem cmdGetId3Data_status01 (env : Env) (t : PYState) (j d : Nat) (hj : j < 2) :
    (cmdGetId3Data env t).nmp_status_data.getD j d = t.nmp_status_data.getD j d := by
  interval_cases j <;>
    simp [cmdGetId3Data,
      apply_ite PYState.nmp_status_data,
      apply_ite (fun l : List Nat => l[0]?.getD d), apply_ite (fun l : List Nat => l[1]?.getD d),
      getD_setByte_ne, getElem?_setByte_ne]

theorem cmdHeadphoneOn_status01 (t : PYState) (j d : Nat) (hj : j < 2) :
    (cmdHeadphoneOn t).nmp_status_data[j]?.getD d = t.nmp_status_data[j]?.getD d := by
  interval_cases j <;>
    simp [cmdHeadphoneOn,
      apply_ite PYState.nmp_status_data, apply_ite PYState.ext_audio,
      apply_ite ExtAudio.playing,
      apply_ite (fun l : List Nat => l[0]?.getD d), apply_ite (fun l : List Nat => l[1]?.getD d),
      getElem?_setByte_ne]

theorem cmdHeadphoneOff_status_data (t : PYState) :
    (cmdHeadphoneOff t).nmp_status_data = t.nmp_status_data := by
  simp [cmdHeadphoneOff, apply_ite PYState.nmp_status_data]

theorem cmdHeadphoneStatus_status01 (t : PYState) (j d : Nat) (hj : j < 2) :
    (cmdHeadphoneStatus t).nmp_status_data.getD j d = t.nmp_status_data.getD j d := by
  interval_cases j <;>
    simp [cmdHeadphoneStatus,
      fun u => cmdHeadphoneOn_status01 u 0 d (by decide),
      fun u => cmdHeadphoneOn_status01 u 1 d (by decide),
      cmdHeadphoneOff_status_data,
      apply_ite PYState.nmp_status_data,
      apply_ite (fun l : List Nat => l[0]?.getD d), apply_ite (fun l : List Nat => l[1]?.getD d)]

theorem cmdSetDir_status01 (t u : PYState) (j d : Nat) (h : cmdSetDir t = some u) :
    u.nmp_status_data.getD j d = t.nmp_status_data.getD j d := by
  simp only [cmdSetDir] at h
  split at h
  · split at h
    · exact (Option.some.inj h) ▸ rfl
    · exact absurd h (by simp)
  · split at h
    · exact (Option.some.inj h) ▸ rfl
    · exact (Option.some.inj h) ▸ rfl

theorem echoStatus_getD0 (c d : Nat) : (echoStatus c).getD 0 d = (c >>> 8) % 256 := rfl

theorem echoStatus_getD1 (c d : Nat) : (echoStatus c).getD 1 d = c % 256 := rfl

/-- CLAIM C5, amended: `status_data[0..1]` mirror the most recently
dispatched opcode's high/low bytes immediately after every dispatch (no
command case overwrites them); the invariant does not survive the next
firmware/status access trigger, which overwrites bytes 0–1 with the
16-bit `stat_data` reply (see the counterexample). -/
theorem c5_status_echo (env : Env) (s s2 : PYState)
    (h : processNmpCmd env s = some s2) :
    s2.nmp_status_data.getD 0 0 = (s.cmd >>> 8) % 256 ∧
    s2.nmp_status_data.getD 1 0 = s.cmd % 256 := by
  by_cases hc1 : s.cmd = NMP_START_FILE_LIST
  · simp [processNmpCmd, hc1, NMP_START_FILE_LIST, NMP_CONTINUE_FILE_LIST, NMP_SET_DIR,
      NMP_GET_ID3_DATA, NMP_PLAY_MUSIC, NMP_STOP_MUSIC, NMP_PAUSE, NMP_RESUME,
      NMP_SEEK, NMP_SET_VOLUME, NMP_PLAY_SFX, NMP_CHECK_FIRMWARE_FILE,
      NMP_READ_FIRMWARE_FILE, NMP_CLOSE_FIRMWARE_FILE, NMP_SLEEP, NMP_WAKE,
      NMP_INIT, NMP_UPDATE_AUDIO, NMP_HEADPHONE_STATUS] at h
    rw [← h]
    exact ⟨(cmdStartFileList_status01 env _ 0 0 (by decide)).trans rfl,
      (cmdStartFileList_status01 env _ 1 0 (by decide)).trans rfl⟩
  by_cases hc2 : s.cmd = NMP_CONTINUE_FILE_LIST
  · simp [processNmpCmd, hc2, NMP_START_FILE_LIST, NMP_CONTINUE_FILE_LIST, NMP_SET_DIR,
      NMP_GET_ID3_DATA, NMP_PLAY_MUSIC, NMP_STOP_MUSIC, NMP_PAUSE, NMP_RESUME,
      NMP_SEEK, NMP_SET_VOLUME, NMP_PLAY_SFX, NMP_CHECK_FIRMWARE_FILE,
      NMP_READ_FIRMWARE_FILE, NMP_CLOSE_FIRMWARE_FILE, NMP_SLEEP, NMP_WAKE,
      NMP_INIT, NMP_UPDATE_AUDIO, NMP_HEADPHONE_STATUS] at h
    rw [← h]
    exact ⟨(cmdContinueFileList_status01 _ 0 0 (by decide)).trans rfl,
      (cmdContinueFileList_status01 _ 1 0 (by decide)).trans rfl⟩
  by_cases hc3 : s.cmd = NMP_SET_DIR
  · simp [processNmpCmd, hc3, NMP_START_FILE_LIST, NMP_CONTINUE_FILE_LIST, NMP_SET_DIR,
      NMP_GET_ID3_DATA, NMP_PLAY_MUSIC, NMP_STOP_MUSIC, NMP_PAUSE, NMP_RESUME,
      NMP_SEEK, NMP_SET_VOLUME, NMP_PLAY_SFX, NMP_CHECK_FIRMWARE_FILE,
      NMP_READ_FIRMWARE_FILE, NMP_CLOSE_FIRMWARE_FILE, NMP_SLEEP, NMP_WAKE,
      NMP_INIT, NMP_UPDATE_AUDIO, NMP_HEADPHONE_STATUS] at h
    exact ⟨(cmdSetDir_status01 _ _ 0 0 h).trans rfl,
      (cmdSetDir_status01 _ _ 1 0 h).trans rfl⟩
  by_cases hc4 : s.cmd = NMP_GET_ID3_DATA
  · simp [processNmpCmd, hc4, NMP_START_FILE_LIST, NMP_CONTINUE_FILE_LIST, NMP_SET_DIR,
      NMP_GET_ID3_DATA, NMP_PLAY_MUSIC, NMP_STOP_MUSIC, NMP_PAUSE, NMP_RESUME,
      NMP_SEEK, NMP_SET_VOLUME, NMP_PLAY_SFX, NMP_CHECK_FIRMWARE_FILE,
      NMP_READ_FIRMWARE_FILE, NMP_CLOSE_FIRMWARE_FILE, NMP_SLEEP, NMP_WAKE,
      NMP_INIT, NMP_UPDATE_AUDIO, NMP_HEADPHONE_STATUS] at h
    rw [← h]
    exact ⟨(cmdGetId3Data_status01 env _ 0 0 (by decide)).trans rfl,
      (cmdGetId3Data_status01 env _ 1 0 (by decide)).trans rfl⟩
  by_cases hc5 : s.cmd = NMP_PLAY_MUSIC
  · simp [processNmpCmd, hc5, NMP_START_FILE_LIST, NMP_CONTINUE_FILE_LIST, NMP_SET_DIR,
      NMP_GET_ID3_DATA, NMP_PLAY_MUSIC, NMP_STOP_MUSIC, NMP_PAUSE, NMP_RESUME,
      NMP_SEEK, NMP_SET_VOLUME, NMP_PLAY_SFX, NMP_CHECK_FIRMWARE_FILE,
      NMP_READ_FIRMWARE_FILE, NMP_CLOSE_FIRMWARE_FILE, NMP_SLEEP, NMP_WAKE,
      NMP_INIT, NMP_UPDATE_AUDIO, NMP_HEADPHONE_STATUS] at h
    rw [← h]
    exact ⟨(congrArg (fun l => List.getD l 0 0) (cmdPlayMusic_status_data env _)).trans rfl,
      (congrArg (fun l => List.getD l 1 0) (cmdPlayMusic_status_data env _)).trans rfl⟩
  by_cases hc6 : s.cmd = NMP_STOP_MUSIC
  · simp [processNmpCmd, hc6, NMP_START_FILE_LIST, NMP_CONTINUE_FILE_LIST, NMP_SET_DIR,
      NMP_GET_ID3_DATA, NMP_PLAY_MUSIC, NMP_STOP_MUSIC, NMP_PAUSE, NMP_RESUME,
      NMP_SEEK, NMP_SET_VOLUME, NMP_PLAY_SFX, NMP_CHECK_FIRMWARE_FILE,
      NMP_READ_FIRMWARE_FILE, NMP_CLOSE_FIRMWARE_FILE, NMP_SLEEP, NMP_WAKE,
      NMP_INIT, NMP_UPDATE_AUDIO, NMP_HEADPHONE_STATUS] at h
    rw [← h]
    exact ⟨(congrArg (fun l => List.getD l 0 0) (cmdStopMusic_status_data _)).trans rfl,
      (congrArg (fun l => List.getD l 1 0) (cmdStopMusic_status_data _)).trans rfl⟩
  by_cases hc7 : s.cmd = NMP_PAUSE
  · simp [processNmpCmd, hc7, NMP_START_FILE_LIST, NMP_CONTINUE_FILE_LIST, NMP_SET_DIR,
      NMP_GET_ID3_DATA, NMP_PLAY_MUSIC, NMP_STOP_MUSIC, NMP_PAUSE, NMP_RESUME,
      NMP_SEEK, NMP_SET_VOLUME, NMP_PLAY_SFX, NMP_CHECK_FIRMWARE_FILE,
      NMP_READ_FIRMWARE_FILE, NMP_CLOSE_FIRMWARE_FILE, NMP_SLEEP, NMP_WAKE,
      NMP_INIT, NMP_UPDATE_AUDIO, NMP_HEADPHONE_STATUS] at h
    rw [← h]
    exact ⟨(congrArg (fun l => List.getD l 0 0) (cmdPause_status_data _)).trans rfl,
      (congrArg (fun l => List.getD l 1 0) (cmdPause_status_data _)).trans rfl⟩
  by_cases hc8 : s.cmd = NMP_RESUME
  · simp [processNmpCmd, hc8, NMP_START_FILE_LIST, NMP_CONTINUE_FILE_LIST, NMP_SET_DIR,
      NMP_GET_ID3_DATA, NMP_PLAY_MUSIC, NMP_STOP_MUSIC, NMP_PAUSE, NMP_RESUME,
      NMP_SEEK, NMP_SET_VOLUME, NMP_PLAY_SFX, NMP_CHECK_FIRMWARE_FILE,
      NMP_READ_FIRMWARE_FILE, NMP_CLOSE_FIRMWARE_FILE, NMP_SLEEP, NMP_WAKE,
      NMP_INIT, NMP_UPDATE_AUDIO, NMP_HEADPHONE_STATUS] at h
    rw [← h]
    exact ⟨(congrArg (fun l => List.getD l 0 0) (cmdResume_status_data _)).trans rfl,
      (congrArg (fun l => List.getD l 1 0) (cmdResume_status_data _)).trans rfl⟩
  by_cases hc9 : s.cmd = NMP_SEEK
  · simp [processNmpCmd, hc9, NMP_START_FILE_LIST, NMP_CONTINUE_FILE_LIST, NMP_SET_DIR,
      NMP_GET_ID3_DATA, NMP_PLAY_MUSIC, NMP_STOP_MUSIC, NMP_PAUSE, NMP_RESUME,
      NMP_SEEK, NMP_SET_VOLUME, NMP_PLAY_SFX, NMP_CHECK_FIRMWARE_FILE,
      NMP_READ_FIRMWARE_FILE, NMP_CLOSE_FIRMWARE_FILE, NMP_SLEEP, NMP_WAKE,
      NMP_INIT, NMP_UPDATE_AUDIO, NMP_HEADPHONE_STATUS] at h
    rw [← h]
    exact ⟨(congrArg (fun l => List.getD l 0 0) (cmdSeek_status_data _)).trans rfl,
      (congrArg (fun l => List.getD l 1 0) (cmdSeek_status_data _)).trans rfl⟩
  by_cases hc10 : s.cmd = NMP_SET_VOLUME
  · simp [processNmpCmd, hc10, NMP_START_FILE_LIST, NMP_CONTINUE_FILE_LIST, NMP_SET_DIR,
      NMP_GET_ID3_DATA, NMP_PLAY_MUSIC, NMP_STOP_MUSIC, NMP_PAUSE, NMP_RESUME,
      NMP_SEEK, NMP_SET_VOLUME, NMP_PLAY_SFX, NMP_CHECK_FIRMWARE_FILE,
      NMP_READ_FIRMWARE_FILE, NMP_CLOSE_FIRMWARE_FILE, NMP_SLEEP, NMP_WAKE,
      NMP_INIT, NMP_UPDATE_AUDIO, NMP_HEADPHONE_STATUS] at h
    rw [← h]
    exact ⟨(congrArg (fun l => List.getD l 0 0) (cmdSetVolume_status_data _)).trans rfl,
      (congrArg (fun l => List.getD l 1 0) (cmdSetVolume_status_data _)).trans rfl⟩
  by_cases hc11 : s.cmd = NMP_PLAY_SFX
  · simp [processNmpCmd, hc11, NMP_START_FILE_LIST, NMP_CONTINUE_FILE_LIST, NMP_SET_DIR,
      NMP_GET_ID3_DATA, NMP_PLAY_MUSIC, NMP_STOP_MUSIC, NMP_PAUSE, NMP_RESUME,
      NMP_SEEK, NMP_SET_VOLUME, NMP_PLAY_SFX, NMP_CHECK_FIRMWARE_FILE,
      NMP_READ_FIRMWARE_FILE, NMP_CLOSE_FIRMWARE_FILE, NMP_SLEEP, NMP_WAKE,
      NMP_INIT, NMP_UPDATE_AUDIO, NMP_HEADPHONE_STATUS] at h
    rw [← h]
    exact ⟨(congrArg (fun l => List.getD l 0 0) (cmdPlaySfx_status_data env _)).trans rfl,
      (congrArg (fun l => List.getD l 1 0) (cmdPlaySfx_status_data env _)).trans rfl⟩
  by_cases hc12 : s.cmd = NMP_CHECK_FIRMWARE_FILE
  · simp [processNmpCmd, hc12, NMP_START_FILE_LIST, NMP_CONTINUE_FILE_LIST, NMP_SET_DIR,
      NMP_GET_ID3_DATA, NMP_PLAY_MUSIC, NMP_STOP_MUSIC, NMP_PAUSE, NMP_RESUME,
      NMP_SEEK, NMP_SET_VOLUME, NMP_PLAY_SFX, NMP_CHECK_FIRMWARE_FILE,
      NMP_READ_FIRMWARE_FILE, NMP_CLOSE_FIRMWARE_FILE, NMP_SLEEP, NMP_WAKE,
      NMP_INIT, NMP_UPDATE_AUDIO, NMP_HEADPHONE_STATUS] at h
    rw [← h]
    exact ⟨rfl, rfl⟩
  by_cases hc13 : s.cmd = NMP_READ_FIRMWARE_FILE
  · simp [processNmpCmd, hc13, NMP_START_FILE_LIST, NMP_CONTINUE_FILE_LIST, NMP_SET_DIR,
      NMP_GET_ID3_DATA, NMP_PLAY_MUSIC, NMP_STOP_MUSIC, NMP_PAUSE, NMP_RESUME,
      NMP_SEEK, NMP_SET_VOLUME, NMP_PLAY_SFX, NMP_CHECK_FIRMWARE_FILE,
      NMP_READ_FIRMWARE_FILE, NMP_CLOSE_FIRMWARE_FILE, NMP_SLEEP, NMP_WAKE,
      NMP_INIT, NMP_UPDATE_AUDIO, NMP_HEADPHONE_STATUS] at h
    rw [← h]
    exact ⟨rfl, rfl⟩
  by_cases hc14 : s.cmd = NMP_CLOSE_FIRMWARE_FILE
  · simp [processNmpCmd, hc14, NMP_START_FILE_LIST, NMP_CONTINUE_FILE_LIST, NMP_SET_DIR,
      NMP_GET_ID3_DATA, NMP_PLAY_MUSIC, NMP_STOP_MUSIC, NMP_PAUSE, NMP_RESUME,
      NMP_SEEK, NMP_SET_VOLUME, NMP_PLAY_SFX, NMP_CHECK_FIRMWARE_FILE,
      NMP_READ_FIRMWARE_FILE, NMP_CLOSE_FIRMWARE_FILE, NMP_SLEEP, NMP_WAKE,
      NMP_INIT, NMP_UPDATE_AUDIO, NMP_HEADPHONE_STATUS] at h
    rw [← h]
    exact ⟨rfl, rfl⟩
  by_cases hc15 : s.cmd = NMP_SLEEP
  · simp [processNmpCmd, hc15, NMP_START_FILE_LIST, NMP_CONTINUE_FILE_LIST, NMP_SET_DIR,
      NMP_GET_ID3_DATA, NMP_PLAY_MUSIC, NMP_STOP_MUSIC, NMP_PAUSE, NMP_RESUME,
      NMP_SEEK, NMP_SET_VOLUME, NMP_PLAY_SFX, NMP_CHECK_FIRMWARE_FILE,
      NMP_READ_FIRMWARE_FILE, NMP_CLOSE_FIRMWARE_FILE, NMP_SLEEP, NMP_WAKE,
      NMP_INIT, NMP_UPDATE_AUDIO, NMP_HEADPHONE_STATUS] at h
    rw [← h]
    exact ⟨rfl, rfl⟩
  by_cases hc16 : s.cmd = NMP_WAKE
  · simp [processNmpCmd, hc16, NMP_START_FILE_LIST, NMP_CONTINUE_FILE_LIST, NMP_SET_DIR,
      NMP_GET_ID3_DATA, NMP_PLAY_MUSIC, NMP_STOP_MUSIC, NMP_PAUSE, NMP_RESUME,
      NMP_SEEK, NMP_SET_VOLUME, NMP_PLAY_SFX, NMP_CHECK_FIRMWARE_FILE,
      NMP_READ_FIRMWARE_FILE, NMP_CLOSE_FIRMWARE_FILE, NMP_SLEEP, NMP_WAKE,
      NMP_INIT, NMP_UPDATE_AUDIO, NMP_HEADPHONE_STATUS] at h
    rw [← h]
    exact ⟨rfl, rfl⟩
  by_cases hc17 : s.cmd = NMP_INIT
  · simp [processNmpCmd, hc17, NMP_START_FILE_LIST, NMP_CONTINUE_FILE_LIST, NMP_SET_DIR,
      NMP_GET_ID3_DATA, NMP_PLAY_MUSIC, NMP_STOP_MUSIC, NMP_PAUSE, NMP_RESUME,
      NMP_SEEK, NMP_SET_VOLUME, NMP_PLAY_SFX, NMP_CHECK_FIRMWARE_FILE,
      NMP_READ_FIRMWARE_FILE, NMP_CLOSE_FIRMWARE_FILE, NMP_SLEEP, NMP_WAKE,
      NMP_INIT, NMP_UPDATE_AUDIO, NMP_HEADPHONE_STATUS] at h
    rw [← h]
    exact ⟨rfl, rfl⟩
  by_cases hc18 : s.cmd = NMP_UPDATE_AUDIO
  · simp [processNmpCmd, hc18, NMP_START_FILE_LIST, NMP_CONTINUE_FILE_LIST, NMP_SET_DIR,
      NMP_GET_ID3_DATA, NMP_PLAY_MUSIC, NMP_STOP_MUSIC, NMP_PAUSE, NMP_RESUME,
      NMP_SEEK, NMP_SET_VOLUME, NMP_PLAY_SFX, NMP_CHECK_FIRMWARE_FILE,
      NMP_READ_FIRMWARE_FILE, NMP_CLOSE_FIRMWARE_FILE, NMP_SLEEP, NMP_WAKE,
      NMP_INIT, NMP_UPDATE_AUDIO, NMP_HEADPHONE_STATUS] at h
    rw [← h]
    exact ⟨(cmdUpdateAudio_status01 _ 0 0 (by decide)).trans rfl,
      (cmdUpdateAudio_status01 _ 1 0 (by decide)).trans rfl⟩
  by_cases hc19 : s.cmd = NMP_HEADPHONE_STATUS
  · simp [processNmpCmd, hc19, NMP_START_FILE_LIST, NMP_CONTINUE_FILE_LIST, NMP_SET_DIR,
      NMP_GET_ID3_DATA, NMP_PLAY_MUSIC, NMP_STOP_MUSIC, NMP_PAUSE, NMP_RESUME,
      NMP_SEEK, NMP_SET_VOLUME, NMP_PLAY_SFX, NMP_CHECK_FIRMWARE_FILE,
      NMP_READ_FIRMWARE_FILE, NMP_CLOSE_FIRMWARE_FILE, NMP_SLEEP, NMP_WAKE,
      NMP_INIT, NMP_UPDATE_AUDIO, NMP_HEADPHONE_STATUS] at h
    rw [← h]
    exact ⟨(cmdHeadphoneStatus_status01 _ 0 0 (by decide)).trans rfl,
      (cmdHeadphoneStatus_status01 _ 1 0 (by decide)).trans rfl⟩
  simp [processNmpCmd, hc1, hc2, hc3, hc4, hc5, hc6, hc7, hc8, hc9, hc10, hc11,
    hc12, hc13, hc14, hc15, hc16, hc17, hc18, hc19] at h
  rw [← h]
  exact ⟨rfl, rfl⟩

/-- Counterexample for C5 as stated: with `0x50` as the most recently
dispatched opcode and `nmp_ticks = 0`, the routine command-poll access
(`access_param = 0x10F`) leaves `status_data[0..1] = (0, 6)` (the tick
counter), not the opcode bytes `(0, 0x50)`. -/
theorem c5_counterexample :
    (accessNmpIo defaultEnv { cmd := 0x50, access_param := 0x10F }).map
        (fun t => (t.nmp_status_data.getD 0 0, t.nmp_status_data.getD 1 0))
      = some (0, 6) ∧
    ¬(((0 : Nat), (6 : Nat)) = (((0x50 : Nat) >>> 8) % 256, (0x50 : Nat) % 256)) :=
  ⟨rfl, by decide⟩

/-- Witness for C5 (amended) at a `NMP_PAUSE` dispatch. -/
theorem c5_status_echo_witness :
    (cmdPause (withEcho { cmd := NMP_PAUSE })).nmp_status_data.getD 0 0
      = (NMP_PAUSE >>> 8) % 256 := by
  have h : processNmpCmd defaultEnv { cmd := NMP_PAUSE }
      = some (cmdPause (withEcho { cmd := NMP_PAUSE })) := rfl
  exact (c5_status_echo defaultEnv _ _ h).1

/-- A device state about to dispatch `SET_DIR` with parsed path `".."`
(the stream holds the opcode, a pad byte, then `.` `.` as 16-bit
characters) and the given current directory. -/
def setDirDotDotState (dir : List Nat) : PYState :=
  { cmd := NMP_SET_DIR
    command_stream := [0, 0x20, 0, 0x2E, 0, 0x2E]
    current_dir := dir }

/-- CLAIM C3 (code bug per the spec's no-underflow requirement): the
`".."` handling of `SET_DIR` maps `"/music/rock"` to `"/music"` and
`"/music"` to the empty string (the boundary rule), but from the empty
string — reachable from `"/music"` by one more `".."` — the trimming loop
reads `current_dir.back()` on an empty string, a buffer underflow
(`none` in the model). -/
theorem c3_set_dir_dotdot :
    (processNmpCmd defaultEnv (setDirDotDotState [47, 109, 117, 115, 105, 99, 47, 114, 111, 99, 107])).map
        PYState.current_dir = some [47, 109, 117, 115, 105, 99] ∧
    (processNmpCmd defaultEnv (setDirDotDotState [47, 109, 117, 115, 105, 99])).map
        PYState.current_dir = some [] ∧
    processNmpCmd defaultEnv (setDirDotDotState []) = none :=
  ⟨rfl, rfl, rfl⟩

theorem length_writeCharPairs (chars : List Nat) (pos : Nat) (card : List Nat) :
    (writeCharPairs chars pos card).length = card.length := by
  induction chars generalizing pos card with
  | nil => rfl
  | cons c rest ih => simp [writeCharPairs, ih]

theorem length_buildListEntry (entry : List Nat) (is_folder : Bool) (card : List Nat) :
    (buildListEntry entry is_folder card).length = card.length := by
  simp [buildListEntry, length_writeCharPairs]

theorem buildListBlock_length (f m : List (List Nat)) (e : Nat) (card : List Nat)
    (h : buildListBlock f m e = some card) : card.length = 528 := by
  simp only [buildListBlock] at h
  split at h
  · injection h with h
    rw [← h]
    exact List.length_replicate 528 0
  · split at h
    · injection h with h
      rw [← h, length_buildListEntry]
      exact List.length_replicate 528 0
    · split at h
      · injection h with h
        rw [← h, length_buildListEntry]
        exact List.length_replicate 528 0
      · exact Option.noConfusion h

theorem buildId3Block_length (t a : List Nat) :
    (buildId3Block t a).length = 272 := by
  show (writeCharPairs (a.take 68) 136 (writeCharPairs (t.take 66) 4 (List.replicate 272 0))).length = 272
  rw [length_writeCharPairs, length_writeCharPairs]
  exact List.length_replicate 272 0

theorem chunkStep_card_length (buffer : List Int) (idxOf : Nat → Nat) (isLeft : Bool)
    (acc : ChunkAcc) (x : Nat) :
    (chunkStep buffer idxOf isLeft acc x).card.length = acc.card.length := by
  simp [chunkStep]

theorem foldl_chunkStep_card_length (buffer : List Int) (idxOf : Nat → Nat)
    (isLeft : Bool) (l : List Nat) (acc : ChunkAcc) :
    (l.foldl (chunkStep buffer idxOf isLeft) acc).card.length = acc.card.length := by
  induction l generalizing acc with
  | nil => rfl
  | cons x xs ih => rw [List.foldl_cons, ih, chunkStep_card_length]

theorem nmpChunkLoop_card_length (buffer : List Int) (idxOf : Nat → Nat)
    (isLeft : Bool) (acc : ChunkAcc) (count : Nat) :
    (nmpChunkLoop buffer idxOf isLeft acc count).card.length = acc.card.length :=
  foldl_chunkStep_card_length buffer idxOf isLeft (List.range' 2 count) acc

theorem applyChunkAcc_card (acc : ChunkAcc) (b : Bool) (s : PYState) :
    (applyChunkAcc acc b s).card_data = acc.card := by
  simp [applyChunkAcc, firePlayYanIrq, apply_ite PYState.card_data]

theorem applyChunkAcc_op_state (acc : ChunkAcc) (b : Bool) (s : PYState) :
    (applyChunkAcc acc b s).op_state = s.op_state := by
  simp [applyChunkAcc, firePlayYanIrq, apply_ite PYState.op_state]

theorem accessUpdateAudio_card_length (env : Env) (s : PYState)
    (h : s.update_audio_stream = true) :
    (accessUpdateAudio env s).card_data.length = s.audio_buffer_size + 2 := by
  simp [accessUpdateAudio, h, applyChunkAcc_card, nmpChunkLoop_card_length,
    apply_ite (fun t => List.length (PYState.card_data t))]

theorem accessUpdateAudio_op_state (env : Env) (s : PYState) :
    (accessUpdateAudio env s).op_state = s.op_state := by
  simp [accessUpdateAudio, applyChunkAcc_op_state, apply_ite PYState.op_state]

theorem accessListBranch_card_length (u s2 : PYState)
    (h : accessListBranch u = some s2) : s2.card_data.length = 528 := by
  simp only [accessListBranch, Option.map_eq_some'] at h
  obtain ⟨card, hcard, heq⟩ := h
  rw [← heq]
  exact buildListBlock_length _ _ _ _ hcard

theorem accessListBranch_op_state (u s2 : PYState)
    (h : accessListBranch u = some s2) : s2.op_state = u.op_state := by
  simp only [accessListBranch, Option.map_eq_some'] at h
  obtain ⟨card, hcard, heq⟩ := h
  rw [← heq]

/-- CLAIM C2, amended: in `GET_SD_DATA`, data-out reads at or past the
end of `card_data` return 0 without advancing the cursor or touching any
state; and after a data-block access trigger the device is in
`GET_SD_DATA`, with `card_data` guaranteed non-empty when the current
opcode is a list command or `GET_ID3_DATA`, or `UPDATE_AUDIO` with the
audio-stream flag set — for any other opcode `card_data` is left empty
(see the counterexample). -/
theorem c2_sd_data_reads (env : Env) (s s2 : PYState) :
    (∀ t : PYState, t.op_state = OpState.GET_SD_DATA →
        t.card_data.length ≤ t.nmp_data_index → readNmpDataOut t = (0, t)) ∧
    (accessNmpIo env s = some s2 →
      (s.access_param = 0 ∨ s.access_param = 0x101 ∨ s.access_param = 0x202 ∨
       s.access_param = s.nmp_audio_index) →
      s2.op_state = OpState.GET_SD_DATA ∧
      ((s.cmd = NMP_START_FILE_LIST ∨ s.cmd = NMP_CONTINUE_FILE_LIST ∨
        s.cmd = NMP_GET_ID3_DATA) → s2.card_data ≠ []) ∧
      (s.cmd = NMP_UPDATE_AUDIO → s.update_audio_stream = true → s2.card_data ≠ [])) := by
  constructor
  · intro t h1 h2
    simp [readNmpDataOut, h1, Nat.not_lt.mpr h2]
  · intro h hd
    have hC : ¬(s.access_param ≠ 0 ∧ s.access_param ≠ 0x101 ∧ s.access_param ≠ 0x202 ∧
        s.access_param ≠ s.nmp_audio_index) := by
      rcases hd with h0 | h0 | h0 | h0 <;> simp [h0]
    simp only [accessNmpIo, if_neg hC] at h
    split at h
    · rename_i hcmd
      refine ⟨(accessListBranch_op_state _ _ h).trans rfl, fun _ => ?_, fun hu _ => ?_⟩
      · have hlen := accessListBranch_card_length _ _ h
        intro hnil
        rw [hnil] at hlen
        exact absurd hlen (by decide)
      · rcases hcmd with hc | hc <;> rw [hu] at hc <;> exact absurd hc (by decide)
    · split at h
      · rename_i hncmd hcmd
        injection h with h
        rw [← h]
        refine ⟨rfl, fun _ => ?_, fun hu _ => ?_⟩
        · have hlen : (accessId3Branch (withSdPrep { s with firmware_addr := 0 })).card_data.length = 272 := by
            simp [accessId3Branch, buildId3Block_length]
          intro hnil
          rw [hnil] at hlen
          exact absurd hlen (by decide)
        · rw [hu] at hcmd
          exact absurd hcmd (by decide)
      · split at h
        · rename_i hn1 hn2 hcmd
          injection h with h
          rw [← h]
          refine ⟨(accessUpdateAudio_op_state _ _).trans rfl, fun hd3 => ?_, fun _ hflag => ?_⟩
          · rcases hd3 with hc | hc | hc
            · exact absurd (Or.inl hc) hn1
            · exact absurd (Or.inr hc) hn1
            · exact absurd hc hn2
          · have hflag2 : (withSdPrep { s with firmware_addr := 0 }).update_audio_stream = true := hflag
            have hlen := accessUpdateAudio_card_length env _ hflag2
            intro hnil
            rw [hnil] at hlen
            simp at hlen
        · rename_i hn1 hn2 hn3
          injection h with h
          rw [← h]
          refine ⟨rfl, fun hd3 => ?_, fun hu _ => ?_⟩
          · rcases hd3 with hc | hc | hc
            · exact absurd (Or.inl hc) hn1
            · exact absurd (Or.inr hc) hn1
            · exact absurd hc hn2
          · exact absurd hu hn3

/-- Counterexample for C2 as stated: a data-block access trigger with
`SET_DIR` as the current opcode (any opcode outside the three data
commands behaves the same) enters `GET_SD_DATA` with `card_data` empty. -/
theorem c2_counterexample :
    (accessNmpIo defaultEnv { cmd := NMP_SET_DIR, access_param := 0 }).map
        (fun t => (t.op_state, t.card_data)) = some (OpState.GET_SD_DATA, []) :=
  rfl

/-- Witness for C2 (amended): an in-range read refusal past the end, and
a non-empty block after a `START_FILE_LIST` data access. -/
def c2ReadState : PYState :=
  { op_state := OpState.GET_SD_DATA, card_data := [1, 2], nmp_data_index := 5 }

def c2ListState : PYState :=
  { cmd := NMP_START_FILE_LIST, access_param := 0 }

theorem c2_sd_data_reads_witness :
    readNmpDataOut c2ReadState = (0, c2ReadState) ∧
    ((accessNmpIo defaultEnv c2ListState).getD {}).card_data ≠ [] := by
  have h : accessNmpIo defaultEnv c2ListState
      = some ((accessNmpIo defaultEnv c2ListState).getD {}) := rfl
  exact ⟨(c2_sd_data_reads defaultEnv {} {}).1 _ rfl (by decide),
    ((c2_sd_data_reads defaultEnv _ _).2 h (Or.inl rfl)).2.1 (Or.inl rfl)⟩

/-- The break path of the trackbar branch: once the computed progress
reaches 100 percent, the pending manual command becomes `STOP_MUSIC`
with a one-tick delay, and nothing after the break runs. -/
theorem cmdUpdateAudioTrackbar_break (t : PYState)
    (h5 : trackbarRate t ≠ 0) (h6 : musicLen1 t ≠ 0)
    (h7 : musicLen1 t ≤ trackbarPos t / trackbarRate t) :
    cmdUpdateAudioTrackbar t =
      { t with
          update_audio_stream := true
          update_trackbar_timestamp := false
          audio_frame_count := 0
          tracker_update_size := trackbarPos t / trackbarRate t
          nmp_status_data := setByte t.nmp_status_data 8
            (trackbarPos t / trackbarRate t * 100 / musicLen1 t)
          nmp_manual_cmd := NMP_STOP_MUSIC
          irq_delay := 1 } := by
  simp only [cmdUpdateAudioTrackbar]
  split_ifs with ha hb hc hb2 hc2 <;>
    first
      | rfl
      | exact absurd h5 ha
      | exact absurd h7 hc
      | exact absurd h6 hb

/-- CLAIM C9: when an `UPDATE_AUDIO` tick arrives while music is playing
on the trackbar path and the computed progress has reached 100 percent,
the device arms an auto `STOP_MUSIC` (manual command, delay 1) instead of
producing audio data (status bytes 2–3 stay zero, the external audio line
is untouched); delivering that `STOP_MUSIC` clears both playing flags and
stops the external output. -/
theorem c9_progress_stop (env : Env) (s s1 s2 : PYState)
    (h1 : s.cmd = NMP_UPDATE_AUDIO)
    (h2 : s.is_music_playing = true)
    (h3 : s.update_audio_stream = false ∨ s.ext_audio.use_headphones = true)
    (h4 : s.update_trackbar_timestamp = true)
    (h5 : trackbarRate s ≠ 0) (h6 : musicLen1 s ≠ 0)
    (h7 : musicLen1 s ≤ trackbarPos s / trackbarRate s)
    (hp1 : processNmpCmd env s = some s1)
    (hp2 : processNmpCmd env { s1 with cmd := NMP_STOP_MUSIC } = some s2) :
    s1.nmp_manual_cmd = NMP_STOP_MUSIC ∧ s1.irq_delay = 1 ∧
    s1.ext_audio = s.ext_audio ∧
    s1.nmp_status_data.getD 2 0 = 0 ∧ s1.nmp_status_data.getD 3 0 = 0 ∧
    s2.is_music_playing = false ∧ s2.is_media_playing = false ∧
    s2.ext_audio.playing = false := by
  have hp : processNmpCmd env s = some (cmdUpdateAudio (withEcho s)) := by
    simp [processNmpCmd, h1, NMP_START_FILE_LIST, NMP_CONTINUE_FILE_LIST, NMP_SET_DIR,
      NMP_GET_ID3_DATA, NMP_PLAY_MUSIC, NMP_STOP_MUSIC, NMP_PAUSE, NMP_RESUME,
      NMP_SEEK, NMP_SET_VOLUME, NMP_PLAY_SFX, NMP_CHECK_FIRMWARE_FILE,
      NMP_READ_FIRMWARE_FILE, NMP_CLOSE_FIRMWARE_FILE, NMP_SLEEP, NMP_WAKE,
      NMP_INIT, NMP_UPDATE_AUDIO, NMP_HEADPHONE_STATUS]
  rw [hp] at hp1
  have hs1 := Option.some.inj hp1
  have hhdr : cmdUpdateAudio (withEcho s)
      = cmdUpdateAudioTrackbar (updateAudioHeader (withEcho s)) := by
    rcases h3 with h0 | h0 <;>
      simp [cmdUpdateAudio, updateAudioHeader, withEcho, h2, h4, h0]
  have hr : trackbarRate (updateAudioHeader (withEcho s)) = trackbarRate s := rfl
  have hposq : trackbarPos (updateAudioHeader (withEcho s)) = trackbarPos s := rfl
  have hlen : musicLen1 (updateAudioHeader (withEcho s)) = musicLen1 s := rfl
  have hbreak := cmdUpdateAudioTrackbar_break (updateAudioHeader (withEcho s))
    (hr ▸ h5) (hlen ▸ h6) (by rw [hr, hposq, hlen]; exact h7)
  rw [hhdr, hbreak] at hs1
  have hstop : processNmpCmd env { s1 with cmd := NMP_STOP_MUSIC }
      = some (cmdStopMusic (withEcho { s1 with cmd := NMP_STOP_MUSIC })) := by
    simp [processNmpCmd, NMP_START_FILE_LIST, NMP_CONTINUE_FILE_LIST, NMP_SET_DIR,
      NMP_GET_ID3_DATA, NMP_PLAY_MUSIC, NMP_STOP_MUSIC, NMP_PAUSE, NMP_RESUME,
      NMP_SEEK, NMP_SET_VOLUME, NMP_PLAY_SFX, NMP_CHECK_FIRMWARE_FILE,
      NMP_READ_FIRMWARE_FILE, NMP_CLOSE_FIRMWARE_FILE, NMP_SLEEP, NMP_WAKE,
      NMP_INIT, NMP_UPDATE_AUDIO, NMP_HEADPHONE_STATUS]
  rw [hstop] at hp2
  have hs2 := Option.some.inj hp2
  rw [← hs1, ← hs2]
  refine ⟨rfl, rfl, rfl, ?_, ?_, rfl, rfl, rfl⟩
  · rw [getD_setByte_ne _ _ _ _ _ (by decide)]
    exact rfl
  · rw [getD_setByte_ne _ _ _ _ _ (by decide)]
    exact rfl

/-- A playing device in speaker mode on the trackbar path whose cursor
(163840 pseudo-rate samples = 10 seconds) has reached the end of an
11-second track (progress 100 percent). -/
def c9State : PYState :=
  { cmd := NMP_UPDATE_AUDIO
    is_music_playing := true
    update_audio_stream := false
    update_trackbar_timestamp := true
    audio_sample_index := 163840
    music_length := 11 }

/-- The state after the progress-100 `UPDATE_AUDIO` tick. -/
def c9Out : PYState :=
  (processNmpCmd defaultEnv c9State).getD {}

/-- The state after the auto-issued `STOP_MUSIC` is delivered. -/
def c9Out2 : PYState :=
  (processNmpCmd defaultEnv { c9Out with cmd := NMP_STOP_MUSIC }).getD {}

/-- Witness for C9 at the concrete progress-100 state. -/
theorem c9_progress_stop_witness :
    trackbarRate c9State ≠ 0 ∧ musicLen1 c9State ≠ 0 ∧
    musicLen1 c9State ≤ trackbarPos c9State / trackbarRate c9State ∧
    c9Out.nmp_manual_cmd = NMP_STOP_MUSIC ∧ c9Out.irq_delay = 1 ∧
    c9Out2.is_music_playing = false ∧ c9Out2.is_media_playing = false := by
  have h1 : processNmpCmd defaultEnv c9State = some c9Out := rfl
  have h2 : processNmpCmd defaultEnv { c9Out with cmd := NMP_STOP_MUSIC } = some c9Out2 := rfl
  have hc := c9_progress_stop defaultEnv c9State c9Out c9Out2 rfl rfl (Or.inl rfl) rfl
    (by decide) (by decide) (by decide) h1 h2
  exact ⟨by decide, by decide, by decide, hc.1, hc.2.1, hc.2.2.2.2.2.1, hc.2.2.2.2.2.2.1⟩

/-- The source sample the chunk loop selects at sample index `n`: the
resample index, clamped to the last stream sample at the end of the
stream. -/
def chunkRaw (buffer : List Int) (idxOf : Nat → Nat) (n : Nat) : Int :=
  let i1 := idxOf n
  buffer.getD (if buffer.length ≤ i1 then buffer.length - 1 else i1) 0

/-- The low byte of a signed sample as stored into the `u8` card buffer
(`sample & 0xFF`). -/
def intByte (z : Int) : Nat :=
  (z.emod 256).toNat

/-- Modelled from the spec: the error-diffusion quantization — each
output sample is `(source_sample + (residual >> 4) * 7) >> 8` (arithmetic
shifts, i.e. flooring division), clamped to `[-128, 127]`; the new
residual is the low byte of the raw source sample. -/
def specDitherQuant (src residual : Int) : Int × Int :=
  (max (-128) (min 127 (Int.fdiv (src + Int.fdiv residual 16 * 7) 256)), src.emod 256)

/-- Modelled from the spec: run the error-diffusion over a sample
sequence, threading the residual; returns the outputs and the final
residual. -/
def specDitherRun : List Int → Int → List Int × Int
  | [], e => ([], e)
  | src :: rest, e =>
    let q := specDitherQuant src e
    let r := specDitherRun rest q.2
    (q.1 :: r.1, r.2)

theorem clamp_eq_max_min (z : Int) :
    (if 127 < z then 127 else if z < -128 then -128 else z)
      = max (-128) (min 127 z) := by
  simp only [Int.max_def, Int.min_def]
  split_ifs <;> omega

theorem chunkStep_writes (buffer : List Int) (idxOf : Nat → Nat) (isLeft : Bool)
    (acc : ChunkAcc) (x : Nat) :
    (chunkStep buffer idxOf isLeft acc x).writes
      = acc.writes ++ [((if acc.n % 2 = 1 then x - 1 else x + 1),
          intByte (specDitherQuant (chunkRaw buffer idxOf acc.n) acc.err).1)] := by
  simp only [chunkStep, specDitherQuant, chunkRaw, intByte, clamp_eq_max_min]

theorem chunkStep_err (buffer : List Int) (idxOf : Nat → Nat) (isLeft : Bool)
    (acc : ChunkAcc) (x : Nat) :
    (chunkStep buffer idxOf isLeft acc x).err
      = (specDitherQuant (chunkRaw buffer idxOf acc.n) acc.err).2 := by
  simp only [chunkStep, specDitherQuant, chunkRaw]

theorem chunkStep_n (buffer : List Int) (idxOf : Nat → Nat) (isLeft : Bool)
    (acc : ChunkAcc) (x : Nat) :
    (chunkStep buffer idxOf isLeft acc x).n = acc.n + 1 := rfl

theorem chunk_fold_spec (buffer : List Int) (idxOf : Nat → Nat) (isLeft : Bool) :
    ∀ (count x : Nat) (acc : ChunkAcc),
      ((List.range' x count).foldl (chunkStep buffer idxOf isLeft) acc).writes.map Prod.snd
        = acc.writes.map Prod.snd
          ++ ((specDitherRun ((List.range count).map
                (fun k => chunkRaw buffer idxOf (acc.n + k))) acc.err).1.map intByte) ∧
      ((List.range' x count).foldl (chunkStep buffer idxOf isLeft) acc).err
        = (specDitherRun ((List.range count).map
            (fun k => chunkRaw buffer idxOf (acc.n + k))) acc.err).2 := by
  intro count
  induction count with
  | zero => intro x acc; simp [specDitherRun]
  | succ c ih =>
    intro x acc
    rw [List.range'_succ, List.foldl_cons]
    have hshift : (fun k => chunkRaw buffer idxOf (acc.n + (k + 1)))
        = fun k => chunkRaw buffer idxOf (acc.n + 1 + k) := by
      funext k
      rw [show acc.n + (k + 1) = acc.n + 1 + k by omega]
    have hn := chunkStep_n buffer idxOf isLeft acc x
    have hw := chunkStep_writes buffer idxOf isLeft acc x
    have he := chunkStep_err buffer idxOf isLeft acc x
    have hih := ih (x + 1) (chunkStep buffer idxOf isLeft acc x)
    rw [List.range_succ_eq_map, List.map_cons, List.map_map]
    have hcomp : (fun k => chunkRaw buffer idxOf (acc.n + k)) ∘ Nat.succ
        = fun k => chunkRaw buffer idxOf (acc.n + 1 + k) := by
      funext k
      simp only [Function.comp]
      rw [show acc.n + (k + 1) = acc.n + 1 + k by omega]
    rw [hcomp]
    constructor
    · rw [hih.1, hw, hn, he]
      simp [specDitherRun, List.map_append, Nat.add_zero]
    · rw [hih.2, hn, he]
      simp [specDitherRun, Nat.add_zero]

/-- CLAIM C7: the audio chunk loop is exactly the spec's error-diffusion
quantizer: starting from any accumulator, the sequence of bytes the loop
writes is the `specDitherRun` output (per sample: add `7/16` of the
carried residual — via arithmetic shifts — quantize by an arithmetic
shift of 8, clamp to `[-128, 127]`, store the low byte) applied to the
source samples the loop selects (`chunkRaw`, a function of the stream and
the running sample index alone), with the final carried residual the last
raw sample's low byte — so the chunk is bit-for-bit determined by the
initial residual and the source stream. -/
theorem c7_dither_refinement (buffer : List Int) (idxOf : Nat → Nat) (isLeft : Bool)
    (acc : ChunkAcc) (count : Nat) :
    (nmpChunkLoop buffer idxOf isLeft acc count).writes.map Prod.snd
      = acc.writes.map Prod.snd
        ++ ((specDitherRun ((List.range count).map
              (fun k => chunkRaw buffer idxOf (acc.n + k))) acc.err).1.map intByte) ∧
    (nmpChunkLoop buffer idxOf isLeft acc count).err
      = (specDitherRun ((List.range count).map
          (fun k => chunkRaw buffer idxOf (acc.n + k))) acc.err).2 :=
  chunk_fold_spec buffer idxOf isLeft count 2 acc

theorem echoStatus_length (c : Nat) : (echoStatus c).length = 16 := rfl

theorem getD_setByte_self (l : List Nat) (i v d : Nat) (h : i < l.length) :
    (setByte l i v).getD i d = v % 256 := by
  simp [setByte, List.getD_eq_getElem?_getD, List.getElem?_set_self, h]

theorem getElem?_setByte_self (l : List Nat) (i v : Nat) (h : i < l.length) :
    (setByte l i v)[i]? = some (v % 256) := by
  simp [setByte, List.getElem?_set_self, h]

/-- One guest `START_FILE_LIST` call: set the opcode and dispatch. -/
def listCallStart (env : Env) (s0 : PYState) : PYState :=
  cmdStartFileList env (withEcho { s0 with cmd := NMP_START_FILE_LIST })

/-- One guest `CONTINUE_FILE_LIST` call: set the opcode and dispatch. -/
def listCallCont (s : PYState) : PYState :=
  cmdContinueFileList (withEcho { s with cmd := NMP_CONTINUE_FILE_LIST })

/-- The state after a `START_FILE_LIST` call followed by `j`
`CONTINUE_FILE_LIST` calls (call number `j + 1` of the listing). -/
def fileListChain (env : Env) (s0 : PYState) : Nat → PYState
  | 0 => listCallStart env s0
  | j + 1 => listCallCont (fileListChain env s0 j)

theorem cmdStartFileList_fields (env : Env) (t : PYState) :
    (cmdStartFileList env t).nmp_entry_count = 1 ∧
    (cmdStartFileList env t).folders = env.get_folders_in_dir t.current_dir ∧
    (cmdStartFileList env t).music_files = env.get_files_in_dir t.current_dir ∧
    (cmdStartFileList env t).current_dir = t.current_dir ∧
    (cmdStartFileList env t).cmd = t.cmd := by
  refine ⟨?_, ?_, ?_, ?_, ?_⟩ <;>
    simp [cmdStartFileList, apply_ite PYState.nmp_entry_count, apply_ite PYState.folders,
      apply_ite PYState.music_files, apply_ite PYState.current_dir, apply_ite PYState.cmd]

theorem cmdContinueFileList_fields (t : PYState) :
    (cmdContinueFileList t).nmp_entry_count = t.nmp_entry_count + 1 ∧
    (cmdContinueFileList t).folders = t.folders ∧
    (cmdContinueFileList t).music_files = t.music_files ∧
    (cmdContinueFileList t).current_dir = t.current_dir ∧
    (cmdContinueFileList t).cmd = t.cmd := by
  refine ⟨?_, ?_, ?_, ?_, ?_⟩ <;>
    simp [cmdContinueFileList, apply_ite PYState.nmp_entry_count, apply_ite PYState.folders,
      apply_ite PYState.music_files, apply_ite PYState.current_dir, apply_ite PYState.cmd]

set_option maxRecDepth 40000 in
theorem listCallStart_status23 (env : Env) (s0 : PYState) :
    (listCallStart env s0).nmp_status_data.getD 2 0 = 0 ∧
    (listCallStart env s0).nmp_status_data.getD 3 0 =
      (if (env.get_files_in_dir s0.current_dir).length
            + (env.get_folders_in_dir s0.current_dir).length ≤ 0 then 1 else 0) := by
  constructor <;>
    (simp [listCallStart, cmdStartFileList, withEcho,
       apply_ite PYState.nmp_status_data,
       apply_ite (fun l : List Nat => l[2]?.getD 0), apply_ite (fun l : List Nat => l[3]?.getD 0),
       getElem?_setByte_ne, getElem?_setByte_self, length_setByte, echoStatus_length]
     split_ifs <;> rfl)

set_option maxRecDepth 40000 in
theorem listCallCont_status23 (t : PYState) :
    (listCallCont t).nmp_status_data.getD 2 0 = 0 ∧
    (listCallCont t).nmp_status_data.getD 3 0 =
      (if t.music_files.length + t.folders.length ≤ t.nmp_entry_count then 1 else 0) := by
  constructor <;>
    (simp [listCallCont, cmdContinueFileList, withEcho,
       apply_ite PYState.nmp_status_data,
       apply_ite (fun l : List Nat => l[2]?.getD 0), apply_ite (fun l : List Nat => l[3]?.getD 0),
       getElem?_setByte_ne, getElem?_setByte_self, length_setByte, echoStatus_length]
     split_ifs <;> rfl)

theorem fileListChain_fields (env : Env) (s0 : PYState) (j : Nat) :
    (fileListChain env s0 j).nmp_entry_count = j + 1 ∧
    (fileListChain env s0 j).folders = env.get_folders_in_dir s0.current_dir ∧
    (fileListChain env s0 j).music_files = env.get_files_in_dir s0.current_dir ∧
    (fileListChain env s0 j).current_dir = s0.current_dir := by
  induction j with
  | zero =>
    have h := cmdStartFileList_fields env (withEcho { s0 with cmd := NMP_START_FILE_LIST })
    exact ⟨h.1, h.2.1, h.2.2.1, h.2.2.2.1⟩
  | succ j ih =>
    have h := cmdContinueFileList_fields
      (withEcho { fileListChain env s0 j with cmd := NMP_CONTINUE_FILE_LIST })
    refine ⟨?_, ?_, ?_, ?_⟩
    · rw [show (fileListChain env s0 (j + 1)).nmp_entry_count
          = (withEcho { fileListChain env s0 j with cmd := NMP_CONTINUE_FILE_LIST }).nmp_entry_count + 1
          from h.1]
      exact congrArg (· + 1) ih.1
    · exact h.2.1.trans ih.2.1
    · exact h.2.2.1.trans ih.2.2.1
    · exact h.2.2.2.1.trans ih.2.2.2

theorem fileListChain_status23 (env : Env) (s0 : PYState) (k : Nat) :
    (fileListChain env s0 k).nmp_status_data.getD 2 0 = 0 ∧
    (fileListChain env s0 k).nmp_status_data.getD 3 0 =
      (if (env.get_files_in_dir s0.current_dir).length
            + (env.get_folders_in_dir s0.current_dir).length ≤ k then 1 else 0) := by
  cases k with
  | zero => exact listCallStart_status23 env s0
  | succ j =>
    have h := listCallCont_status23 (fileListChain env s0 j)
    have hf := fileListChain_fields env s0 j
    refine ⟨h.1, ?_⟩
    rw [show (fileListChain env s0 (j + 1)) = listCallCont (fileListChain env s0 j) from rfl,
      h.2, hf.1, hf.2.1, hf.2.2.1]

theorem writeCharPairs_getD_lt (chars : List Nat) (pos : Nat) (card : List Nat)
    (i d : Nat) (h : i < pos) :
    (writeCharPairs chars pos card).getD i d = card.getD i d := by
  induction chars generalizing pos card with
  | nil => rfl
  | cons c rest ih =>
    rw [writeCharPairs, ih (pos + 2) _ (by omega)]
    simp [List.getD_eq_getElem?_getD,
      List.getElem?_set_ne (show pos ≠ i by omega),
      List.getElem?_set_ne (show pos + 1 ≠ i by omega)]

theorem buildListEntry_getD525 (entry : List Nat) (b : Bool) :
    (buildListEntry entry b (List.replicate 528 0)).getD 525 0 = if b then 1 else 2 := by
  have hl : (writeCharPairs (entry.take 255) 2
      (((List.replicate 528 0).set 0 0).set 1 (if b then 1 else 2))).length = 528 := by
    rw [length_writeCharPairs, List.length_set, List.length_set, List.length_replicate]
  simp only [buildListEntry]
  rw [List.getD_eq_getElem?_getD, List.getElem?_set_self (by rw [hl]; decide)]
  rfl

theorem buildListEntry_getD1 (entry : List Nat) (b : Bool) :
    (buildListEntry entry b (List.replicate 528 0)).getD 1 0 = if b then 1 else 2 := by
  have hl : (((List.replicate 528 0).set 0 0).length) = 528 := by
    rw [List.length_set, List.length_replicate]
  simp only [buildListEntry]
  rw [List.getD_eq_getElem?_getD, List.getElem?_set_ne (by decide),
    ← List.getD_eq_getElem?_getD, writeCharPairs_getD_lt _ _ _ _ _ (by decide)]
  rw [List.getD_eq_getElem?_getD, List.getElem?_set_self (by rw [hl]; decide)]
  rfl

set_option maxRecDepth 40000 in
theorem buildListBlock_flags (f m : List (List Nat)) (i : Nat)
    (hin : i < f.length + m.length) :
    (buildListBlock f m (i + 1)).map (fun card => (card.getD 1 0, card.getD 525 0))
      = some (if i < f.length then ((1 : Nat), (1 : Nat)) else (2, 2)) := by
  by_cases hf : i < f.length
  · simp only [buildListBlock]
    rw [Nat.add_sub_cancel, if_neg (Nat.succ_ne_zero i), if_pos hf]
    simp only [Option.map_some']
    rw [buildListEntry_getD1, buildListEntry_getD525, if_pos hf]
    rfl
  · have hm : i - f.length < m.length := by omega
    simp only [buildListBlock]
    rw [Nat.add_sub_cancel, if_neg (Nat.succ_ne_zero i), if_neg hf, if_pos hm]
    simp only [Option.map_some']
    rw [buildListEntry_getD1, buildListEntry_getD525, if_neg hf]
    rfl

theorem accessNmpIo_list_delivery (env : Env) (s : PYState)
    (hc : s.cmd = NMP_START_FILE_LIST ∨ s.cmd = NMP_CONTINUE_FILE_LIST) :
    (accessNmpIo env { s with access_param := 0 }).map
        (fun t => (t.card_data.getD 1 0, t.card_data.getD 525 0))
      = (buildListBlock s.folders s.music_files s.nmp_entry_count).map
          (fun card => (card.getD 1 0, card.getD 525 0)) := by
  rcases hc with hc | hc <;>
    simp [accessNmpIo, hc, accessListBranch, withSdPrep, Option.map_map, Function.comp_def]

/-- CLAIM C6: the listing protocol.  Dispatching `START_FILE_LIST` /
`CONTINUE_FILE_LIST` performs the chain calls; with
`N = folder_count + file_count` entries in the snapshot, calls 1 through
`N` report more-data (status bytes 2–3 = 0,0) and call `N + 1` is the
first to report list-complete (bytes 2–3 = 0,1); and the data block
delivered after call `i + 1` is a folder entry (tag and flag bytes 1)
for the first `folder_count` entries and a file entry (bytes 2)
afterwards — folders always precede files. -/
theorem c6_file_list (env : Env) (s0 : PYState) :
    (∀ t : PYState, processNmpCmd env { t with cmd := NMP_START_FILE_LIST }
        = some (listCallStart env t)) ∧
    (∀ t : PYState, processNmpCmd env { t with cmd := NMP_CONTINUE_FILE_LIST }
        = some (listCallCont t)) ∧
    (∀ k, k < (env.get_files_in_dir s0.current_dir).length
            + (env.get_folders_in_dir s0.current_dir).length →
       (fileListChain env s0 k).nmp_status_data.getD 2 0 = 0 ∧
       (fileListChain env s0 k).nmp_status_data.getD 3 0 = 0) ∧
    ((fileListChain env s0 ((env.get_files_in_dir s0.current_dir).length
            + (env.get_folders_in_dir s0.current_dir).length)).nmp_status_data.getD 2 0 = 0 ∧
     (fileListChain env s0 ((env.get_files_in_dir s0.current_dir).length
            + (env.get_folders_in_dir s0.current_dir).length)).nmp_status_data.getD 3 0 = 1) ∧
    (∀ i, i < (env.get_files_in_dir s0.current_dir).length
            + (env.get_folders_in_dir s0.current_dir).length →
       (accessNmpIo env { fileListChain env s0 i with access_param := 0 }).map
           (fun t => (t.card_data.getD 1 0, t.card_data.getD 525 0))
         = some (if i < (env.get_folders_in_dir s0.current_dir).length
                 then ((1 : Nat), (1 : Nat)) else (2, 2))) := by
  refine ⟨?_, ?_, ?_, ?_, ?_⟩
  · intro t
    simp [processNmpCmd, listCallStart, NMP_START_FILE_LIST, NMP_CONTINUE_FILE_LIST, NMP_SET_DIR,
      NMP_GET_ID3_DATA, NMP_PLAY_MUSIC, NMP_STOP_MUSIC, NMP_PAUSE, NMP_RESUME,
      NMP_SEEK, NMP_SET_VOLUME, NMP_PLAY_SFX, NMP_CHECK_FIRMWARE_FILE,
      NMP_READ_FIRMWARE_FILE, NMP_CLOSE_FIRMWARE_FILE, NMP_SLEEP, NMP_WAKE,
      NMP_INIT, NMP_UPDATE_AUDIO, NMP_HEADPHONE_STATUS]
  · intro t
    simp [processNmpCmd, listCallCont, NMP_START_FILE_LIST, NMP_CONTINUE_FILE_LIST, NMP_SET_DIR,
      NMP_GET_ID3_DATA, NMP_PLAY_MUSIC, NMP_STOP_MUSIC, NMP_PAUSE, NMP_RESUME,
      NMP_SEEK, NMP_SET_VOLUME, NMP_PLAY_SFX, NMP_CHECK_FIRMWARE_FILE,
      NMP_READ_FIRMWARE_FILE, NMP_CLOSE_FIRMWARE_FILE, NMP_SLEEP, NMP_WAKE,
      NMP_INIT, NMP_UPDATE_AUDIO, NMP_HEADPHONE_STATUS]
  · intro k hk
    have h := fileListChain_status23 env s0 k
    exact ⟨h.1, by rw [h.2, if_neg (by omega)]⟩
  · have h := fileListChain_status23 env s0
      ((env.get_files_in_dir s0.current_dir).length
        + (env.get_folders_in_dir s0.current_dir).length)
    exact ⟨h.1, by rw [h.2, if_pos (by omega)]⟩
  · intro i hi
    have hf := fileListChain_fields env s0 i
    have hcmd : (fileListChain env s0 i).cmd = NMP_START_FILE_LIST ∨
        (fileListChain env s0 i).cmd = NMP_CONTINUE_FILE_LIST := by
      cases i with
      | zero =>
        exact Or.inl
          ((cmdStartFileList_fields env
            (withEcho { s0 with cmd := NMP_START_FILE_LIST })).2.2.2.2.trans rfl)
      | succ j =>
        exact Or.inr
          ((cmdContinueFileList_fields
            (withEcho { fileListChain env s0 j with
              cmd := NMP_CONTINUE_FILE_LIST })).2.2.2.2.trans rfl)
    rw [accessNmpIo_list_delivery env (fileListChain env s0 i) hcmd,
      hf.2.1, hf.2.2.1, hf.1]
    exact buildListBlock_flags _ _ i (by omega)

/-- An environment whose current directory holds one folder and one music
file. -/
def c6Env : Env :=
  { defaultEnv with
      get_folders_in_dir := fun _ => [[102]]
      get_files_in_dir := fun _ => [[109]] }

/-- Witness for C6 with one folder and one file (`N = 2`): calls 1 and 2
report more-data, call 3 reports complete; the first delivered entry is
the folder, the second the file. -/
theorem c6_file_list_witness :
    ((fileListChain c6Env {} 0).nmp_status_data.getD 3 0 = 0) ∧
    ((fileListChain c6Env {} 1).nmp_status_data.getD 3 0 = 0) ∧
    ((fileListChain c6Env {} 2).nmp_status_data.getD 3 0 = 1) ∧
    ((accessNmpIo c6Env { fileListChain c6Env {} 0 with access_param := 0 }).map
        (fun t => (t.card_data.getD 1 0, t.card_data.getD 525 0)) = some (1, 1)) ∧
    ((accessNmpIo c6Env { fileListChain c6Env {} 1 with access_param := 0 }).map
        (fun t => (t.card_data.getD 1 0, t.card_data.getD 525 0)) = some (2, 2)) := by
  have hc := c6_file_list c6Env {}
  exact ⟨(hc.2.2.1 0 (by decide)).2, (hc.2.2.1 1 (by decide)).2, hc.2.2.2.1.2,
    (hc.2.2.2.2 0 (by decide)).trans (by decide),
    (hc.2.2.2.2 1 (by decide)).trans (by decide)⟩

end GbeNmp
